import Mathlib

/-!
Verification of the usage-aggregation engine of the `token-usage` repository:
the event-log (Claude Code) analyzer and collector, the tabular (Cursor CSV)
analyzer, the team merge stage, and the migration-ratio derivation of the
stats service.  Python dictionaries are embedded as insertion-ordered
association lists, Python sets as `Finset`, JSON numbers of the merge stage
as rationals, and ISO timestamps as UTC instants split into a calendar day
and a time of day, ordered lexicographically.
-/

/-- A UTC instant: the calendar day (as a day number) together with the time
of day inside that calendar day.  `parse_timestamp` in the scripts returns a
timezone-aware UTC datetime; only its ordering and its `.date()` are used by
the engine, so this pair is a faithful shallow embedding. -/
structure Ts where
  day : Int
  tod : Int
deriving DecidableEq, Repr

/-- Strict ordering of instants: lexicographic on (day, time of day),
mirroring datetime comparison of UTC instants. -/
def tsLtB (a b : Ts) : Bool :=
  a.day < b.day || (a.day == b.day && a.tod < b.tod)

/-- The `usage` object of an assistant event record
(`claude_code_stats.analyze_jsonl_file`, lines 152-155). -/
structure Usage where
  input_tokens : Nat
  output_tokens : Nat
  cache_creation_input_tokens : Nat
  cache_read_input_tokens : Nat
deriving DecidableEq, Repr

/-- One element of a message `content` list: the analyzer only distinguishes
text parts, tool-invocation parts, and everything else. -/
inductive ContentPart
  | text
  | toolUse
  | otherPart
deriving DecidableEq, Repr

/-- The `content` of a user record: a plain string, a list of parts, or some
other JSON value (which counts as no user message). -/
inductive UserContent
  | ofString
  | ofParts (parts : List ContentPart)
  | invalid
deriving DecidableEq, Repr

/-- One parsed line of a session JSONL file.  A missing or unparseable
timestamp is `none`; an assistant record's `requestId` defaults to the empty
string when absent (`record.get("requestId", "")`); its `usage` is `none`
when missing or empty (`if usage:`); its `content` is `none` when it is not
a list. -/
inductive EventRecord
  | user (ts : Option Ts) (content : UserContent)
  | assistant (ts : Option Ts) (requestId : String) (model : String)
      (usage : Option Usage) (content : Option (List ContentPart))
  | otherType (ts : Option Ts)
deriving DecidableEq, Repr

/-- The timestamp field of a record, checked before the type dispatch. -/
def EventRecord.ts : EventRecord → Option Ts
  | .user t _ => t
  | .assistant t _ _ _ _ => t
  | .otherType t => t

/-- The per-model / per-day tally of the JSONL analyzer (the defaultdict
values at lines 81-94 of `claude_code_stats.py`). -/
structure Tally5 where
  input_tokens : Nat
  output_tokens : Nat
  cache_creation_input_tokens : Nat
  cache_read_input_tokens : Nat
  requests : Nat
deriving DecidableEq, Repr

/-- The all-zero tally, the defaultdict default. -/
def t5zero : Tally5 := ⟨0, 0, 0, 0, 0⟩

/-- Add one usage record into a tally and count one request. -/
def addUsageT5 (u : Usage) (t : Tally5) : Tally5 :=
  { input_tokens := t.input_tokens + u.input_tokens
    output_tokens := t.output_tokens + u.output_tokens
    cache_creation_input_tokens :=
      t.cache_creation_input_tokens + u.cache_creation_input_tokens
    cache_read_input_tokens :=
      t.cache_read_input_tokens + u.cache_read_input_tokens
    requests := t.requests + 1 }

/-- Update an insertion-ordered association list at key `k`: apply `f` to the
stored value, or to the default `d` when the key is new (appending the new
key at the end, as a Python dict would).  This is the embedding of
`defaultdict` access followed by mutation. -/
def updAssoc {κ α : Type} [DecidableEq κ]
    (m : List (κ × α)) (k : κ) (d : α) (f : α → α) : List (κ × α) :=
  match m with
  | [] => [(k, f d)]
  | (k₁, v) :: rest =>
      if k₁ = k then (k₁, f v) :: rest else (k₁, v) :: updAssoc rest k d f

/-- The result of `analyze_jsonl_file`: running totals, message and tool-call
counts, and the per-model and per-day buckets. -/
structure JsonlStats where
  input_tokens : Nat
  output_tokens : Nat
  cache_creation_input_tokens : Nat
  cache_read_input_tokens : Nat
  user_messages : Nat
  assistant_messages : Nat
  tool_calls : Nat
  models_used : List (String × Tally5)
  by_day : List (Int × Tally5)
deriving DecidableEq, Repr

/-- The all-zero analyzer result (lines 73-95). -/
def jsonlZero : JsonlStats := ⟨0, 0, 0, 0, 0, 0, 0, [], []⟩

/-- The analyzer's in-pass state: the stats built so far plus the
`seen_request_ids` set (membership is all that matters, so a list). -/
structure AState where
  stats : JsonlStats
  seen : List String
deriving DecidableEq, Repr

/-- Count one content part of an assistant record: a text part is one
assistant message, a `tool_use` part is one tool call (lines 179-185). -/
def countPart (st : JsonlStats) (p : ContentPart) : JsonlStats :=
  match p with
  | .text => { st with assistant_messages := st.assistant_messages + 1 }
  | .toolUse => { st with tool_calls := st.tool_calls + 1 }
  | .otherPart => st

/-- Process one line of a session JSONL file, embedding the loop body of
`analyze_jsonl_file` (lines 104-185): skip unparseable lines, records
without a parseable timestamp, and records outside `[startT, endT]`; count
user messages; for assistant records skip the whole record when its nonempty
`requestId` was already seen, otherwise record the id, accumulate usage into
the totals and the per-model and per-day buckets, then count message and
tool-call content parts. -/
def processLine (startT endT : Ts) (s : AState) (line : Option EventRecord) :
    AState :=
  match line with
  | none => s
  | some r =>
    match r.ts with
    | none => s
    | some t =>
      if tsLtB t startT || tsLtB endT t then s
      else
        match r with
        | .user _ content =>
          match content with
          | .ofString =>
              { s with stats :=
                  { s.stats with user_messages := s.stats.user_messages + 1 } }
          | .ofParts parts =>
              if parts.any fun c => decide (c = ContentPart.text) then
                { s with stats :=
                    { s.stats with
                        user_messages := s.stats.user_messages + 1 } }
              else s
          | .invalid => s
        | .assistant _ rid model usage content =>
          if rid != "" && s.seen.contains rid then s
          else
            let seen1 := if rid != "" then rid :: s.seen else s.seen
            let st1 :=
              match usage with
              | none => s.stats
              | some u =>
                let st := s.stats
                let st :=
                  { st with
                      input_tokens := st.input_tokens + u.input_tokens
                      output_tokens := st.output_tokens + u.output_tokens
                      cache_creation_input_tokens :=
                        st.cache_creation_input_tokens +
                          u.cache_creation_input_tokens
                      cache_read_input_tokens :=
                        st.cache_read_input_tokens +
                          u.cache_read_input_tokens }
                let st :=
                  { st with
                      models_used :=
                        updAssoc st.models_used model t5zero (addUsageT5 u) }
                { st with
                    by_day := updAssoc st.by_day t.day t5zero (addUsageT5 u) }
            let st2 :=
              match content with
              | none => st1
              | some parts => parts.foldl countPart st1
            { stats := st2, seen := seen1 }
        | .otherType _ => s

/-- `analyze_jsonl_file`: fold the line processor over the file contents
starting from the zero stats and an empty seen-id set.  An absent file is
the empty list (the function returns the zero stats for it, lines 97-98). -/
def analyze_jsonl_file (file : List (Option EventRecord))
    (startT endT : Ts) : JsonlStats :=
  (file.foldl (processLine startT endT) ⟨jsonlZero, []⟩).stats

/-- Content-part counting never changes the token totals. -/
theorem foldl_countPart_tokens (parts : List ContentPart) (st : JsonlStats) :
    (parts.foldl countPart st).input_tokens = st.input_tokens ∧
    (parts.foldl countPart st).output_tokens = st.output_tokens := by
  induction parts generalizing st with
  | nil => exact ⟨rfl, rfl⟩
  | cons p ps ih =>
    have h := ih (countPart st p)
    cases p <;> simpa [countPart] using h

/-- Scenario window for the event-log analyzer claims. -/
def c1start : Ts := ⟨0, 0⟩

/-- Scenario window end. -/
def c1end : Ts := ⟨100, 0⟩

/-- An in-window assistant record with `requestId = "r1"`, usage
input=100 / output=50, and one text content part. -/
def c1recDup : EventRecord :=
  .assistant (some ⟨1, 0⟩) "r1" "m" (some ⟨100, 50, 0, 0⟩) (some [.text])

/-- An in-window assistant record with no request identity and usage
input=20 / output=10. -/
def c1recNoId : EventRecord :=
  .assistant (some ⟨1, 0⟩) "" "m" (some ⟨20, 10, 0, 0⟩) (some [])

/-- The scenario file: two assistant records sharing `requestId = "r1"`
(input=100, output=50 each) and one without an id (input=20, output=10). -/
def c1file : List (Option EventRecord) :=
  [some c1recDup, some c1recDup, some c1recNoId]

/-- C1 counterexample: the claim says a duplicate assistant record still
contributes to the assistant-message count according to its content parts,
so two copies of a record carrying one text part should yield 2 assistant
messages; the code skips the whole duplicate record (`continue` at line 147
fires before the content loop), yielding 1. -/
theorem C1_counterexample :
    (analyze_jsonl_file [some c1recDup, some c1recDup]
        c1start c1end).assistant_messages = 1 ∧
    ¬ ((analyze_jsonl_file [some c1recDup, some c1recDup]
        c1start c1end).assistant_messages = 2) := by
  constructor
  · decide
  · decide

/-- C1 (amended): in one analyzer pass, an assistant record whose nonempty
`requestId` has already been seen is skipped entirely — it contributes
neither usage nor assistant-message / tool-call counts; an assistant record
carrying no request identity contributes its usage every time it appears;
and the scenario file of two records sharing `requestId="r1"` (100/50 each)
plus one id-less record (20/10) yields total input=120 and output=60. -/
theorem C1_theorem :
    (∀ (startT endT : Ts) (s : AState) (t : Ts) (rid model : String)
        (usage : Option Usage) (content : Option (List ContentPart)),
      rid ≠ "" → s.seen.contains rid = true →
      processLine startT endT s
        (some (.assistant (some t) rid model usage content)) = s) ∧
    (∀ (startT endT : Ts) (s : AState) (t : Ts) (model : String) (u : Usage)
        (content : Option (List ContentPart)),
      tsLtB t startT = false → tsLtB endT t = false →
      (processLine startT endT s
          (some (.assistant (some t) "" model (some u) content))).stats.input_tokens
        = s.stats.input_tokens + u.input_tokens ∧
      (processLine startT endT s
          (some (.assistant (some t) "" model (some u) content))).stats.output_tokens
        = s.stats.output_tokens + u.output_tokens) ∧
    (analyze_jsonl_file c1file c1start c1end).input_tokens = 120 ∧
    (analyze_jsonl_file c1file c1start c1end).output_tokens = 60 := by
  refine ⟨?_, ?_, by decide, by decide⟩
  · intro startT endT s t rid model usage content h1 h2
    have hb : (rid != "" && s.seen.contains rid) = true := by
      rw [Bool.and_eq_true, bne_iff_ne]
      exact ⟨h1, h2⟩
    by_cases hw : (tsLtB t startT || tsLtB endT t) = true
    · simp [processLine, EventRecord.ts, hw]
    · simp [processLine, EventRecord.ts, hw, hb]
      intro h
      exact absurd (List.mem_of_elem_eq_true h2) (h h1)
  · intro startT endT s t model u content hw1 hw2
    cases content with
    | none =>
      simp [processLine, EventRecord.ts, hw1, hw2]
    | some parts =>
      have h := foldl_countPart_tokens parts
      constructor <;>
        simp [processLine, EventRecord.ts, hw1, hw2, h]

/-- Component-wise sum of two per-model tallies (the key loop at
`claude_code_stats.py` lines 297-300). -/
def addT5 (u t : Tally5) : Tally5 :=
  { input_tokens := t.input_tokens + u.input_tokens
    output_tokens := t.output_tokens + u.output_tokens
    cache_creation_input_tokens :=
      t.cache_creation_input_tokens + u.cache_creation_input_tokens
    cache_read_input_tokens :=
      t.cache_read_input_tokens + u.cache_read_input_tokens
    requests := t.requests + u.requests }

/-- One entry of a project's `sessions-index.json`, together with the
contents of its session JSONL file (an absent file is the empty list).
`created` / `modified` are `none` when missing or unparseable (both cases
leave the cheap pre-filter inactive). -/
structure SessionEntry where
  sessionId : Option String
  created : Option Ts
  modified : Option Ts
  file : List (Option EventRecord)

/-- One project directory: its name and its session-index entries. -/
structure Project where
  name : String
  entries : List SessionEntry

/-- The per-day bucket of the collector result (lines 224-230). -/
structure DayAgg where
  input_tokens : Nat
  output_tokens : Nat
  cache_creation_input_tokens : Nat
  cache_read_input_tokens : Nat
  total_tokens_with_cache : Nat
deriving DecidableEq, Repr

/-- The all-zero per-day collector bucket. -/
def dayAggZero : DayAgg := ⟨0, 0, 0, 0, 0⟩

/-- Fold one session's per-day tally into a collector day bucket
(lines 304-311), including the cache-inclusive day total. -/
def addDayAgg (t : Tally5) (d : DayAgg) : DayAgg :=
  { input_tokens := d.input_tokens + t.input_tokens
    output_tokens := d.output_tokens + t.output_tokens
    cache_creation_input_tokens :=
      d.cache_creation_input_tokens + t.cache_creation_input_tokens
    cache_read_input_tokens :=
      d.cache_read_input_tokens + t.cache_read_input_tokens
    total_tokens_with_cache :=
      d.total_tokens_with_cache +
        (t.input_tokens + t.output_tokens +
          t.cache_creation_input_tokens + t.cache_read_input_tokens) }

/-- The per-project tally of the collector (lines 238-247). -/
structure ProjectStats where
  input_tokens : Nat
  output_tokens : Nat
  cache_creation_input_tokens : Nat
  cache_read_input_tokens : Nat
  sessions : Nat
  user_messages : Nat
  assistant_messages : Nat
  tool_calls : Nat
deriving DecidableEq, Repr

/-- The zero per-project tally. -/
def psZero : ProjectStats := ⟨0, 0, 0, 0, 0, 0, 0, 0⟩

/-- The `summary` object of the event-log Source Summary (lines 203-215,
with the sets already collapsed to their cardinalities as at lines
341-343). -/
structure CCSummary where
  total_input_tokens : Nat
  total_output_tokens : Nat
  total_cache_creation_tokens : Nat
  total_cache_read_tokens : Nat
  total_tokens : Nat
  total_tokens_with_cache : Nat
  total_sessions : Nat
  total_user_messages : Nat
  total_assistant_messages : Nat
  total_tool_calls : Nat
  active_days : Nat
  active_projects : Nat
deriving DecidableEq, Repr

/-- The event-log Source Summary produced by `collect_stats` of
`claude_code_stats.py` (metadata fields such as the generation time are
ambient environment state and are outside the aggregation engine). -/
structure CCResult where
  summary : CCSummary
  by_model : List (String × Tally5)
  by_project : List (String × ProjectStats)
  by_day : List (Int × DayAgg)
deriving Repr

/-- The collector's in-pass accumulator: the running summary counters, the
`active_days` / `active_projects` sets, and the three buckets. -/
structure CAcc where
  total_input_tokens : Nat
  total_output_tokens : Nat
  total_cache_creation_tokens : Nat
  total_cache_read_tokens : Nat
  total_sessions : Nat
  total_user_messages : Nat
  total_assistant_messages : Nat
  total_tool_calls : Nat
  active_days : Finset Int
  active_projects : Finset String
  by_model : List (String × Tally5)
  by_project : List (String × ProjectStats)
  by_day : List (Int × DayAgg)

/-- The empty collector accumulator. -/
def caccZero : CAcc := ⟨0, 0, 0, 0, 0, 0, 0, 0, ∅, ∅, [], [], []⟩

/-- The cheap session pre-filter (lines 249-273): a session is scanned when
it has a session id, its creation instant (when known) is not after the
window end, and its last-modified instant (when known) is not before the
window start. -/
def sessionIncludedB (startT endT : Ts) (e : SessionEntry) : Bool :=
  e.sessionId.isSome &&
    !(match e.created with | some c => tsLtB endT c | none => false) &&
    !(match e.modified with | some m => tsLtB m startT | none => false)

/-- The activity test of line 279: a session counts as active when its pass
found input tokens or user messages. -/
def entryActiveB (startT endT : Ts) (e : SessionEntry) : Bool :=
  let s := analyze_jsonl_file e.file startT endT
  decide (0 < s.input_tokens) || decide (0 < s.user_messages)

/-- Process one session-index entry (the loop body at lines 249-313):
skip filtered sessions; analyze the JSONL file; on activity count the
session, mark the project active and record the session's creation date;
accumulate the session's tallies into the project tally and the collector's
per-model and per-day buckets, recording each usage day as active. -/
def processEntry (startT endT : Ts) (pname : String)
    (st : CAcc × ProjectStats) (e : SessionEntry) : CAcc × ProjectStats :=
  if sessionIncludedB startT endT e then
    let acc := st.1
    let ps := st.2
    let s := analyze_jsonl_file e.file startT endT
    let active := entryActiveB startT endT e
    let acc :=
      if active then
        { acc with
            total_sessions := acc.total_sessions + 1
            active_projects := insert pname acc.active_projects
            active_days :=
              match e.created with
              | some c => insert c.day acc.active_days
              | none => acc.active_days }
      else acc
    let ps := if active then { ps with sessions := ps.sessions + 1 } else ps
    let ps :=
      { ps with
          input_tokens := ps.input_tokens + s.input_tokens
          output_tokens := ps.output_tokens + s.output_tokens
          cache_creation_input_tokens :=
            ps.cache_creation_input_tokens + s.cache_creation_input_tokens
          cache_read_input_tokens :=
            ps.cache_read_input_tokens + s.cache_read_input_tokens
          user_messages := ps.user_messages + s.user_messages
          assistant_messages := ps.assistant_messages + s.assistant_messages
          tool_calls := ps.tool_calls + s.tool_calls }
    let acc :=
      { acc with
          by_model :=
            s.models_used.foldl
              (fun m p => updAssoc m p.1 t5zero (addT5 p.2)) acc.by_model
          by_day :=
            s.by_day.foldl
              (fun m p => updAssoc m p.1 dayAggZero (addDayAgg p.2))
              acc.by_day
          active_days :=
            s.by_day.foldl (fun ad p => insert p.1 ad) acc.active_days }
    (acc, ps)
  else st

/-- Process one project directory (lines 235-325): fold its entries from a
zero project tally, then add the project tally into the collector totals and
record the project in `by_project` when it had a counted session. -/
def processProject (startT endT : Ts) (acc : CAcc) (p : Project) : CAcc :=
  let r := p.entries.foldl (processEntry startT endT p.name) (acc, psZero)
  let acc1 := r.1
  let ps := r.2
  { acc1 with
      total_input_tokens := acc1.total_input_tokens + ps.input_tokens
      total_output_tokens := acc1.total_output_tokens + ps.output_tokens
      total_cache_creation_tokens :=
        acc1.total_cache_creation_tokens + ps.cache_creation_input_tokens
      total_cache_read_tokens :=
        acc1.total_cache_read_tokens + ps.cache_read_input_tokens
      total_user_messages := acc1.total_user_messages + ps.user_messages
      total_assistant_messages :=
        acc1.total_assistant_messages + ps.assistant_messages
      total_tool_calls := acc1.total_tool_calls + ps.tool_calls
      by_project :=
        if 0 < ps.sessions then acc1.by_project ++ [(p.name, ps)]
        else acc1.by_project }

/-- `collect_stats` of `claude_code_stats.py`: fold all projects, then
compute the API total (input+output) and the cache-inclusive total
(input+output+cacheRead+cacheCreate) from the already-summed fields
(lines 327-339), and collapse the activity sets to cardinalities
(lines 341-343). -/
def collect_stats (projects : List Project) (startT endT : Ts) : CCResult :=
  let acc := projects.foldl (processProject startT endT) caccZero
  { summary :=
      { total_input_tokens := acc.total_input_tokens
        total_output_tokens := acc.total_output_tokens
        total_cache_creation_tokens := acc.total_cache_creation_tokens
        total_cache_read_tokens := acc.total_cache_read_tokens
        total_tokens := acc.total_input_tokens + acc.total_output_tokens
        total_tokens_with_cache :=
          acc.total_input_tokens + acc.total_output_tokens +
            acc.total_cache_read_tokens + acc.total_cache_creation_tokens
        total_sessions := acc.total_sessions
        total_user_messages := acc.total_user_messages
        total_assistant_messages := acc.total_assistant_messages
        total_tool_calls := acc.total_tool_calls
        active_days := acc.active_days.card
        active_projects := acc.active_projects.card }
    by_model := acc.by_model
    by_project := acc.by_project
    by_day := acc.by_day }

/-- Specification-side reading of the days one counted session contributes
to the `active_days` set: its creation date when the session is active, plus
every day bearing usage in the session's per-day bucket. -/
def entryDaysSpec (startT endT : Ts) (e : SessionEntry) : Finset Int :=
  (if entryActiveB startT endT e then
     (match e.created with
      | some c => {c.day}
      | none => (∅ : Finset Int))
   else ∅) ∪
    ((analyze_jsonl_file e.file startT endT).by_day.map Prod.fst).toFinset

/-- Specification-side union of the day sets of a list of session entries
(only entries passing the pre-filter contribute). -/
def entriesDaysSpec (startT endT : Ts) (entries : List SessionEntry) :
    Finset Int :=
  ((entries.filter fun e => sessionIncludedB startT endT e).map
      (entryDaysSpec startT endT)).foldr (· ∪ ·) ∅

/-- Specification-side union of the active-day sets of all projects. -/
def collectDaysSpec (startT endT : Ts) (projects : List Project) :
    Finset Int :=
  (projects.map fun p => entriesDaysSpec startT endT p.entries).foldr
    (· ∪ ·) ∅

/-- A project is active when one of its counted sessions is active. -/
def projectActiveB (startT endT : Ts) (p : Project) : Bool :=
  p.entries.any fun e =>
    sessionIncludedB startT endT e && entryActiveB startT endT e

/-- Specification-side set of distinct active project names. -/
def activeProjectsSpec (startT endT : Ts) (projects : List Project) :
    Finset String :=
  ((projects.filter (projectActiveB startT endT)).map Project.name).toFinset

/-- Folding element-wise inserts of the keys of an association list into a
finite set is the union with the key set. -/
theorem foldl_insert_keys {α β : Type} [DecidableEq α]
    (l : List (α × β)) (s : Finset α) :
    l.foldl (fun t p => insert p.1 t) s = s ∪ (l.map Prod.fst).toFinset := by
  induction l generalizing s with
  | nil => simp
  | cons p ps ih =>
    simp only [List.foldl_cons, ih, List.map_cons, List.toFinset_cons]
    rw [Finset.insert_union, Finset.union_insert]

/-- Active-day effect of processing one session entry. -/
theorem processEntry_active_days (startT endT : Ts) (pn : String)
    (st : CAcc × ProjectStats) (e : SessionEntry) :
    ((processEntry startT endT pn st e).1).active_days =
      st.1.active_days ∪
        (if sessionIncludedB startT endT e then entryDaysSpec startT endT e
         else ∅) := by
  by_cases hi : sessionIncludedB startT endT e
  · cases ha : entryActiveB startT endT e with
    | false =>
      simp only [processEntry, hi, ha, if_true, if_false, Bool.false_eq_true,
        entryDaysSpec]
      rw [foldl_insert_keys]
      ext x
      simp
    | true =>
      cases hc : e.created with
      | none =>
        simp only [processEntry, hi, ha, hc, if_true, entryDaysSpec]
        rw [foldl_insert_keys]
        ext x
        simp
      | some c =>
        simp only [processEntry, hi, ha, hc, if_true, entryDaysSpec]
        rw [foldl_insert_keys]
        ext x
        simp
        tauto
  · simp [processEntry, hi]

/-- Active-project effect of processing one session entry. -/
theorem processEntry_active_projects (startT endT : Ts) (pn : String)
    (st : CAcc × ProjectStats) (e : SessionEntry) :
    ((processEntry startT endT pn st e).1).active_projects =
      st.1.active_projects ∪
        (if sessionIncludedB startT endT e && entryActiveB startT endT e
         then {pn} else ∅) := by
  by_cases hi : sessionIncludedB startT endT e
  · cases ha : entryActiveB startT endT e with
    | false => simp [processEntry, hi, ha]
    | true => simp [processEntry, hi, ha, Finset.insert_eq,
        Finset.union_comm]
  · simp [processEntry, hi]

/-- Active-day effect of a whole entries fold. -/
theorem foldl_processEntry_active_days (startT endT : Ts) (pn : String)
    (entries : List SessionEntry) (st : CAcc × ProjectStats) :
    ((entries.foldl (processEntry startT endT pn) st).1).active_days =
      st.1.active_days ∪ entriesDaysSpec startT endT entries := by
  induction entries generalizing st with
  | nil => simp [entriesDaysSpec]
  | cons e es ih =>
    rw [List.foldl_cons, ih, processEntry_active_days]
    by_cases hi : sessionIncludedB startT endT e
    · simp [entriesDaysSpec, hi, Finset.union_assoc]
    · simp [entriesDaysSpec, hi]

/-- Active-project effect of a whole entries fold. -/
theorem foldl_processEntry_active_projects (startT endT : Ts) (pn : String)
    (entries : List SessionEntry) (st : CAcc × ProjectStats) :
    ((entries.foldl (processEntry startT endT pn) st).1).active_projects =
      st.1.active_projects ∪
        (if entries.any fun e =>
            sessionIncludedB startT endT e && entryActiveB startT endT e
         then {pn} else ∅) := by
  induction entries generalizing st with
  | nil => simp
  | cons e es ih =>
    rw [List.foldl_cons, ih, processEntry_active_projects]
    by_cases hb : (sessionIncludedB startT endT e &&
        entryActiveB startT endT e) = true
    · by_cases hr : es.any (fun e =>
          sessionIncludedB startT endT e && entryActiveB startT endT e) = true
      · simp [hb, hr, Finset.union_assoc]
      · simp [hb, hr]
    · simp [hb]

/-- Active-day effect of processing one project. -/
theorem processProject_active_days (startT endT : Ts) (acc : CAcc)
    (p : Project) :
    (processProject startT endT acc p).active_days =
      acc.active_days ∪ entriesDaysSpec startT endT p.entries := by
  simp [processProject, foldl_processEntry_active_days]

/-- Active-project effect of processing one project. -/
theorem processProject_active_projects (startT endT : Ts) (acc : CAcc)
    (p : Project) :
    (processProject startT endT acc p).active_projects =
      acc.active_projects ∪
        (if projectActiveB startT endT p then {p.name} else ∅) := by
  simp [processProject, foldl_processEntry_active_projects, projectActiveB]

/-- Active-day set of the whole collector fold. -/
theorem foldl_processProject_active_days (startT endT : Ts)
    (projects : List Project) (acc : CAcc) :
    (projects.foldl (processProject startT endT) acc).active_days =
      acc.active_days ∪ collectDaysSpec startT endT projects := by
  induction projects generalizing acc with
  | nil => simp [collectDaysSpec]
  | cons p ps ih =>
    rw [List.foldl_cons, ih, processProject_active_days]
    simp [collectDaysSpec, Finset.union_assoc]

/-- Active-project set of the whole collector fold. -/
theorem foldl_processProject_active_projects (startT endT : Ts)
    (projects : List Project) (acc : CAcc) :
    (projects.foldl (processProject startT endT) acc).active_projects =
      acc.active_projects ∪ activeProjectsSpec startT endT projects := by
  induction projects generalizing acc with
  | nil => simp [activeProjectsSpec]
  | cons p ps ih =>
    rw [List.foldl_cons, ih, processProject_active_projects]
    by_cases hp : projectActiveB startT endT p
    · simp [activeProjectsSpec, hp, Finset.insert_eq, Finset.union_assoc]
    · simp [activeProjectsSpec, hp]

/-- Window start for the collector counterexample. -/
def c8start : Ts := ⟨31, 0⟩

/-- Window end for the collector counterexample. -/
def c8end : Ts := ⟨40, 0⟩

/-- An in-window assistant record on day 31 with 100/50 usage. -/
def c8record : EventRecord :=
  .assistant (some ⟨31, 0⟩) "r1" "m" (some ⟨100, 50, 0, 0⟩) (some [])

/-- A session created on day 0 (before the window) whose only usage lies on
day 31 (inside the window). -/
def c8entry : SessionEntry :=
  { sessionId := some "s"
    created := some ⟨0, 0⟩
    modified := some ⟨31, 0⟩
    file := [some c8record] }

/-- The single-project input for the collector counterexample. -/
def c8project : Project := ⟨"proj", [c8entry]⟩

/-- C8 counterexample: the claim says `summary.active_days` is the number of
distinct calendar days with non-zero activity within the window.  For a
session created on day 0 whose only in-window activity is on day 31, the
days with activity are exactly the one `by_day` key (day 31), yet the code
also adds the session's creation date (line 287), yielding 2, not 1. -/
theorem C8_counterexample :
    (collect_stats [c8project] c8start c8end).summary.active_days = 2 ∧
    ((collect_stats [c8project] c8start c8end).by_day.map
        Prod.fst).dedup.length = 1 ∧
    ¬ ((collect_stats [c8project] c8start c8end).summary.active_days =
       ((collect_stats [c8project] c8start c8end).by_day.map
           Prod.fst).dedup.length) := by
  refine ⟨by decide, by decide, by decide⟩

/-- C8 (amended): `summary.active_days` is a set cardinality — no day is
ever counted twice — of the union, over counted sessions, of the session's
creation date (when the session is active) and the days bearing usage in the
window; and `summary.active_projects` is the cardinality of the set of
distinct projects with an active session. -/
theorem C8_theorem :
    ∀ (projects : List Project) (startT endT : Ts),
    (collect_stats projects startT endT).summary.active_days =
      (collectDaysSpec startT endT projects).card ∧
    (collect_stats projects startT endT).summary.active_projects =
      (activeProjectsSpec startT endT projects).card := by
  intro projects startT endT
  constructor
  · simp [collect_stats, foldl_processProject_active_days, caccZero]
  · simp [collect_stats, foldl_processProject_active_projects, caccZero]

/-- Python `int()` applied to a JSON number: truncation toward zero. -/
def pyInt (q : ℚ) : ℤ := if 0 ≤ q then ⌊q⌋ else ⌈q⌉

/-- The `summary` mapping of a loaded Source Summary artifact as the merge
stage reads it: every key is accessed with `.get(key, 0)`, so a missing key
is the value 0.  Claude-side and Cursor-side keys live in the one mapping
(`total_tokens` and `active_days` are shared key names). -/
structure MergeSummaryIn where
  total_input_tokens : ℚ
  total_output_tokens : ℚ
  total_cache_creation_tokens : ℚ
  total_cache_read_tokens : ℚ
  total_tokens : ℚ
  total_tokens_with_cache : ℚ
  total_sessions : ℚ
  total_user_messages : ℚ
  active_days : ℚ
  active_projects : ℚ
  input_tokens_with_cache : ℚ
  input_tokens_without_cache : ℚ
  cache_read_tokens : ℚ
  output_tokens : ℚ
  requests : ℚ
  records : ℚ
deriving DecidableEq, Repr

/-- The all-zero summary mapping (an artifact with every key missing). -/
def zeroSummaryIn : MergeSummaryIn :=
  ⟨0, 0, 0, 0, 0, 0, 0, 0, 0, 0, 0, 0, 0, 0, 0, 0⟩

/-- The `metadata` mapping of a loaded artifact as the merge reads it. -/
structure MergeMeta where
  source : Option String
  username : Option String
  start_date : Option String
  end_date : Option String
deriving DecidableEq, Repr

/-- A successfully loaded Source Summary artifact. -/
structure StatsFile where
  metadata : MergeMeta
  summary : MergeSummaryIn
deriving DecidableEq, Repr

/-- One input file handed to `merge_stats`: its path, its stem (the
username fallback), and the load result — `none` when `load_stats_file`
raised (unreadable or non-JSON content). -/
structure InputFile where
  path : String
  stem : String
  loaded : Option StatsFile
deriving DecidableEq, Repr

/-- The owner identity of an artifact: the explicit `username` field, else
the file stem (line 95 of `team_summary.py`). -/
def ownerOf (f : InputFile) (st : StatsFile) : String :=
  st.metadata.username.getD f.stem

/-- The tool kind of an artifact: the explicit `source` field, defaulting
to `claude_code` (line 94). -/
def sourceOf (st : StatsFile) : String :=
  st.metadata.source.getD "claude_code"

/-- The team-level claude_code aggregate (numeric part, lines 43-52). -/
structure CCAgg where
  total_input_tokens : ℚ
  total_output_tokens : ℚ
  total_cache_creation_tokens : ℚ
  total_cache_read_tokens : ℚ
  total_tokens : ℚ
  total_tokens_with_cache : ℚ
  total_sessions : ℚ
  total_user_messages : ℚ
deriving DecidableEq, Repr

/-- Zero claude team aggregate. -/
def ccAggZero : CCAgg := ⟨0, 0, 0, 0, 0, 0, 0, 0⟩

/-- Accumulate one claude artifact into the team aggregate (lines
163-170). -/
def ccAdd (a : CCAgg) (s : MergeSummaryIn) : CCAgg :=
  { total_input_tokens := a.total_input_tokens + s.total_input_tokens
    total_output_tokens := a.total_output_tokens + s.total_output_tokens
    total_cache_creation_tokens :=
      a.total_cache_creation_tokens + s.total_cache_creation_tokens
    total_cache_read_tokens :=
      a.total_cache_read_tokens + s.total_cache_read_tokens
    total_tokens := a.total_tokens + s.total_tokens
    total_tokens_with_cache :=
      a.total_tokens_with_cache + s.total_tokens_with_cache
    total_sessions := a.total_sessions + s.total_sessions
    total_user_messages := a.total_user_messages + s.total_user_messages }

/-- The team-level cursor aggregate (numeric part, lines 54-63). -/
structure CuAgg where
  total_input_tokens_with_cache : ℚ
  total_input_tokens_without_cache : ℚ
  total_cache_read_tokens : ℚ
  total_output_tokens : ℚ
  total_tokens : ℚ
  total_requests : ℚ
  total_records : ℚ
deriving DecidableEq, Repr

/-- Zero cursor team aggregate. -/
def cuAggZero : CuAgg := ⟨0, 0, 0, 0, 0, 0, 0⟩

/-- Accumulate one cursor artifact into the team aggregate (lines
134-140). -/
def cuAdd (a : CuAgg) (s : MergeSummaryIn) : CuAgg :=
  { total_input_tokens_with_cache :=
      a.total_input_tokens_with_cache + s.input_tokens_with_cache
    total_input_tokens_without_cache :=
      a.total_input_tokens_without_cache + s.input_tokens_without_cache
    total_cache_read_tokens :=
      a.total_cache_read_tokens + s.cache_read_tokens
    total_output_tokens := a.total_output_tokens + s.output_tokens
    total_tokens := a.total_tokens + s.total_tokens
    total_requests := a.total_requests + s.requests
    total_records := a.total_records + s.records }

/-- A member's claude_code entry in `by_member` (lines 151-160, raw
values). -/
structure MemberCC where
  input_tokens : ℚ
  output_tokens : ℚ
  total_tokens : ℚ
  total_tokens_with_cache : ℚ
  sessions : ℚ
  user_messages : ℚ
  active_days : ℚ
  active_projects : ℚ
deriving DecidableEq, Repr

/-- Build a member's claude entry from an artifact summary. -/
def ccMemberOf (s : MergeSummaryIn) : MemberCC :=
  ⟨s.total_input_tokens, s.total_output_tokens, s.total_tokens,
    s.total_tokens_with_cache, s.total_sessions, s.total_user_messages,
    s.active_days, s.active_projects⟩

/-- A member's cursor entry in `by_member` (lines 124-131; the first three
values go through `int()`). -/
structure MemberCu where
  input_tokens : ℤ
  output_tokens : ℤ
  total_tokens : ℤ
  requests : ℚ
  records : ℚ
  active_days : ℚ
deriving DecidableEq, Repr

/-- Build a member's cursor entry from an artifact summary. -/
def cuMemberOf (s : MergeSummaryIn) : MemberCu :=
  ⟨pyInt s.input_tokens_with_cache, pyInt s.output_tokens,
    pyInt s.total_tokens, s.requests, s.records, s.active_days⟩

/-- A `by_member` value: at most one entry per tool kind (lines 114-118). -/
structure MemberEntry where
  claude_code : Option MemberCC
  cursor : Option MemberCu
deriving DecidableEq, Repr

/-- A claude leaderboard row (lines 173-177). -/
structure CCToolEntry where
  username : String
  total_tokens : ℚ
  sessions : ℚ
deriving DecidableEq, Repr

/-- A cursor leaderboard row (lines 143-147; total through `int()`). -/
structure CuToolEntry where
  username : String
  total_tokens : ℤ
  requests : ℚ
deriving DecidableEq, Repr

/-- One element of `metadata.sources` (lines 107-111). -/
structure SourceRef where
  file : String
  username : String
  source : String
deriving DecidableEq, Repr

/-- The date-range start update (lines 100-102): adopt a present, nonempty
start string when there is no current one (or it is empty, which Python
treats as falsy) or the new one is lexicographically smaller. -/
def drUpdStart (cur : Option String) (sd : Option String) : Option String :=
  match sd with
  | none => cur
  | some s =>
    if s = "" then cur
    else
      match cur with
      | none => some s
      | some c => if c = "" || decide (s < c) then some s else some c

/-- The date-range end update (lines 103-105), symmetric with the maximum. -/
def drUpdEnd (cur : Option String) (sd : Option String) : Option String :=
  match sd with
  | none => cur
  | some s =>
    if s = "" then cur
    else
      match cur with
      | none => some s
      | some c => if c = "" || decide (c < s) then some s else some c

/-- The merge fold state: everything `merge_stats` mutates per file. -/
structure MergeAcc where
  sources : List SourceRef
  cc : CCAgg
  cu : CuAgg
  by_member : List (String × MemberEntry)
  by_tool_cc : List CCToolEntry
  by_tool_cu : List CuToolEntry
  dr_start : Option String
  dr_end : Option String
  members : Finset String
  claude_members : Finset String
  cursor_members : Finset String

/-- The initial merge state (lines 36-83). -/
def maccZero : MergeAcc :=
  ⟨[], ccAggZero, cuAggZero, [], [], [], none, none, ∅, ∅, ∅⟩

/-- Process one input file of the merge (the loop body at lines 85-177):
an unreadable file is reported and skipped; otherwise resolve owner and
tool kind, update the date range, append the source reference, register the
member, and accumulate into the matching tool's team total, `by_member`
entry (overwriting the member's entry for that tool) and leaderboard
list. -/
def mergeStep (acc : MergeAcc) (f : InputFile) : MergeAcc :=
  match f.loaded with
  | none => acc
  | some st =>
    let source := sourceOf st
    let username := ownerOf f st
    let acc :=
      { acc with
          dr_start := drUpdStart acc.dr_start st.metadata.start_date
          dr_end := drUpdEnd acc.dr_end st.metadata.end_date
          sources := acc.sources ++ [(⟨f.path, username, source⟩ : SourceRef)]
          members := insert username acc.members }
    if source = "cursor" then
      { acc with
          cursor_members := insert username acc.cursor_members
          by_member :=
            updAssoc acc.by_member username ⟨none, none⟩
              (fun m => { m with cursor := some (cuMemberOf st.summary) })
          cu := cuAdd acc.cu st.summary
          by_tool_cu :=
            acc.by_tool_cu ++
              [(⟨username, pyInt st.summary.total_tokens,
                st.summary.requests⟩ : CuToolEntry)] }
    else
      { acc with
          claude_members := insert username acc.claude_members
          by_member :=
            updAssoc acc.by_member username ⟨none, none⟩
              (fun m => { m with claude_code := some (ccMemberOf st.summary) })
          cc := ccAdd acc.cc st.summary
          by_tool_cc :=
            acc.by_tool_cc ++
              [(⟨username, st.summary.total_tokens,
                st.summary.total_sessions⟩ : CCToolEntry)] }

/-- The combined cross-tool totals (lines 64-68 and 184-198). -/
structure Combined where
  total_tokens : ℚ
  total_input_tokens : ℚ
  total_output_tokens : ℚ
deriving DecidableEq, Repr

/-- Descending stable order on claude leaderboard rows. -/
def ccToolLe (a b : CCToolEntry) : Bool := b.total_tokens ≤ a.total_tokens

/-- Descending stable order on cursor leaderboard rows. -/
def cuToolLe (a b : CuToolEntry) : Bool := b.total_tokens ≤ a.total_tokens

/-- The Team Summary artifact (the generation time is ambient state and is
outside the aggregation engine). -/
structure MergeResult where
  total_members : Nat
  sources : List SourceRef
  claude_code : CCAgg
  claude_members_count : Nat
  cursor : CuAgg
  cursor_members_count : Nat
  combined : Combined
  by_member : List (String × MemberEntry)
  by_tool_claude : List CCToolEntry
  by_tool_cursor : List CuToolEntry
  dr_start : Option String
  dr_end : Option String
deriving DecidableEq, Repr

/-- The closing phase of `merge_stats` (lines 179-204): set the member
counts, compute the combined totals — the claude side of the combined total
is `total_tokens_with_cache`, a key the team dict always carries (line 49),
so the `.get` fallback to `total_tokens` at lines 185-186 never fires — and
produce the leaderboards sorted stably by descending total. -/
def finalizeMerge (acc : MergeAcc) : MergeResult :=
  { total_members := acc.members.card
    sources := acc.sources
    claude_code := acc.cc
    claude_members_count := acc.claude_members.card
    cursor := acc.cu
    cursor_members_count := acc.cursor_members.card
    combined :=
      { total_tokens := acc.cc.total_tokens_with_cache + acc.cu.total_tokens
        total_input_tokens :=
          acc.cc.total_input_tokens +
            ((pyInt acc.cu.total_input_tokens_with_cache : ℤ) : ℚ)
        total_output_tokens :=
          acc.cc.total_output_tokens +
            ((pyInt acc.cu.total_output_tokens : ℤ) : ℚ) }
    by_member := acc.by_member
    by_tool_claude := acc.by_tool_cc.mergeSort ccToolLe
    by_tool_cursor := acc.by_tool_cu.mergeSort cuToolLe
    dr_start := acc.dr_start
    dr_end := acc.dr_end }

/-- `merge_stats` over the artifacts that behave: fold, then finalize. -/
def merge_stats (files : List InputFile) : MergeResult :=
  finalizeMerge (files.foldl mergeStep maccZero)

/-- What one input file does to the merge loop.  Only `load_stats_file`
(open plus `json.load`) sits inside the `try` at lines 86-90, so there are
three behaviours: `loadError` — the load itself raises (unreadable file or
invalid JSON) and is caught, warned about and skipped; `malformed` — the
file loads as JSON but its shape makes the loop body raise an uncaught
exception (a top-level array hits `stats.get` at line 92 with an
AttributeError, string-valued summary fields hit the `+=` accumulations at
lines 134-140 / 163-170 with a TypeError), aborting the whole merge; and
`conforming st` — a well-shaped artifact processed as `st`. -/
inductive LoadOutcome
  | loadError
  | malformed
  | conforming (st : StatsFile)
deriving DecidableEq, Repr

/-- One input file of the merge together with its load behaviour. -/
structure RawInputFile where
  path : String
  stem : String
  outcome : LoadOutcome
deriving DecidableEq, Repr

/-- Forget the abort behaviour: the view of a raw file inside the loop
body, defined only when no file aborts. -/
def toInputFile (f : RawInputFile) : InputFile :=
  ⟨f.path, f.stem,
    match f.outcome with
    | .conforming st => some st
    | _ => none⟩

/-- The error message standing for an uncaught exception raised by the
merge loop body on a non-conforming artifact. -/
def mergeAbortMsg : String := "uncaught error while merging artifact"

/-- The merge loop body over a raw input file: a load failure is caught and
skipped, a non-conforming artifact raises (aborting the fold), a conforming
one is accumulated by `mergeStep`. -/
def mergeStepE (acc : MergeAcc) (f : RawInputFile) :
    Except String MergeAcc :=
  match f.outcome with
  | .loadError => Except.ok acc
  | .malformed => Except.error mergeAbortMsg
  | .conforming st => Except.ok (mergeStep acc ⟨f.path, f.stem, some st⟩)

/-- `merge_stats` of `team_summary.py` with its abort behaviour: fold the
loop body, propagating an uncaught exception, then finalize. -/
def merge_statsE (files : List RawInputFile) : Except String MergeResult :=
  (files.foldlM mergeStepE maccZero).map finalizeMerge

/-- The `main` entry of `team_summary.py` around the merge (lines
317-335): it exits with an error exactly when the collected input file
list is empty; otherwise it runs the merge, which itself may abort on a
non-conforming artifact. -/
def team_summary_main (files : List RawInputFile) :
    Except String MergeResult :=
  if files.isEmpty then Except.error "no JSON stats files found"
  else merge_statsE files

/-- The conforming artifacts among the inputs (the valid inputs). -/
def validInputs (files : List RawInputFile) : List StatsFile :=
  files.filterMap fun f =>
    match f.outcome with
    | .conforming st => some st
    | _ => none

/-- The loaded claude-kind artifacts, with their resolved owners, in input
order. -/
def claudeFiles (files : List InputFile) : List (String × MergeSummaryIn) :=
  files.filterMap fun f =>
    match f.loaded with
    | none => none
    | some st =>
      if sourceOf st = "cursor" then none else some (ownerOf f st, st.summary)

/-- The loaded cursor-kind artifacts, with their resolved owners, in input
order. -/
def cursorFiles (files : List InputFile) : List (String × MergeSummaryIn) :=
  files.filterMap fun f =>
    match f.loaded with
    | none => none
    | some st =>
      if sourceOf st = "cursor" then some (ownerOf f st, st.summary) else none

/-- The claude team aggregate of the fold is the fold of `ccAdd` over the
loaded claude artifacts. -/
theorem foldl_mergeStep_cc (files : List InputFile) (acc : MergeAcc) :
    (files.foldl mergeStep acc).cc =
      (claudeFiles files).foldl (fun a p => ccAdd a p.2) acc.cc := by
  induction files generalizing acc with
  | nil => simp [claudeFiles]
  | cons f fs ih =>
    cases hf : f.loaded with
    | none => simp [mergeStep, hf, ih, claudeFiles]
    | some st =>
      by_cases hs : sourceOf st = "cursor"
      · simp [mergeStep, hf, hs, ih, claudeFiles]
      · simp [mergeStep, hf, hs, ih, claudeFiles]

/-- The cursor team aggregate of the fold is the fold of `cuAdd` over the
loaded cursor artifacts. -/
theorem foldl_mergeStep_cu (files : List InputFile) (acc : MergeAcc) :
    (files.foldl mergeStep acc).cu =
      (cursorFiles files).foldl (fun a p => cuAdd a p.2) acc.cu := by
  induction files generalizing acc with
  | nil => simp [cursorFiles]
  | cons f fs ih =>
    cases hf : f.loaded with
    | none => simp [mergeStep, hf, ih, cursorFiles]
    | some st =>
      by_cases hs : sourceOf st = "cursor"
      · simp [mergeStep, hf, hs, ih, cursorFiles]
      · simp [mergeStep, hf, hs, ih, cursorFiles]

/-- The claude leaderboard rows of the fold: one appended row per loaded
claude artifact, in input order. -/
theorem foldl_mergeStep_by_tool_cc (files : List InputFile) (acc : MergeAcc) :
    (files.foldl mergeStep acc).by_tool_cc =
      acc.by_tool_cc ++
        (claudeFiles files).map
          (fun p => ⟨p.1, p.2.total_tokens, p.2.total_sessions⟩) := by
  induction files generalizing acc with
  | nil => simp [claudeFiles]
  | cons f fs ih =>
    cases hf : f.loaded with
    | none => simp [mergeStep, hf, ih, claudeFiles]
    | some st =>
      by_cases hs : sourceOf st = "cursor"
      · simp [mergeStep, hf, hs, ih, claudeFiles]
      · simp [mergeStep, hf, hs, ih, claudeFiles]

/-- The cursor leaderboard rows of the fold: one appended row per loaded
cursor artifact, in input order. -/
theorem foldl_mergeStep_by_tool_cu (files : List InputFile) (acc : MergeAcc) :
    (files.foldl mergeStep acc).by_tool_cu =
      acc.by_tool_cu ++
        (cursorFiles files).map
          (fun p => ⟨p.1, pyInt p.2.total_tokens, p.2.requests⟩) := by
  induction files generalizing acc with
  | nil => simp [cursorFiles]
  | cons f fs ih =>
    cases hf : f.loaded with
    | none => simp [mergeStep, hf, ih, cursorFiles]
    | some st =>
      by_cases hs : sourceOf st = "cursor"
      · simp [mergeStep, hf, hs, ih, cursorFiles]
      · simp [mergeStep, hf, hs, ih, cursorFiles]

/-- Folding `ccAdd` is the field-wise sum. -/
theorem ccFold_eq (l : List (String × MergeSummaryIn)) (a : CCAgg) :
    l.foldl (fun a p => ccAdd a p.2) a =
      ⟨a.total_input_tokens +
          (l.map fun p => p.2.total_input_tokens).sum,
        a.total_output_tokens +
          (l.map fun p => p.2.total_output_tokens).sum,
        a.total_cache_creation_tokens +
          (l.map fun p => p.2.total_cache_creation_tokens).sum,
        a.total_cache_read_tokens +
          (l.map fun p => p.2.total_cache_read_tokens).sum,
        a.total_tokens + (l.map fun p => p.2.total_tokens).sum,
        a.total_tokens_with_cache +
          (l.map fun p => p.2.total_tokens_with_cache).sum,
        a.total_sessions + (l.map fun p => p.2.total_sessions).sum,
        a.total_user_messages +
          (l.map fun p => p.2.total_user_messages).sum⟩ := by
  induction l generalizing a with
  | nil => simp
  | cons p l ih =>
    rw [List.foldl_cons, ih]
    simp [ccAdd, CCAgg.mk.injEq, add_assoc]

/-- Folding `cuAdd` is the field-wise sum. -/
theorem cuFold_eq (l : List (String × MergeSummaryIn)) (a : CuAgg) :
    l.foldl (fun a p => cuAdd a p.2) a =
      ⟨a.total_input_tokens_with_cache +
          (l.map fun p => p.2.input_tokens_with_cache).sum,
        a.total_input_tokens_without_cache +
          (l.map fun p => p.2.input_tokens_without_cache).sum,
        a.total_cache_read_tokens +
          (l.map fun p => p.2.cache_read_tokens).sum,
        a.total_output_tokens + (l.map fun p => p.2.output_tokens).sum,
        a.total_tokens + (l.map fun p => p.2.total_tokens).sum,
        a.total_requests + (l.map fun p => p.2.requests).sum,
        a.total_records + (l.map fun p => p.2.records).sum⟩ := by
  induction l generalizing a with
  | nil => simp
  | cons p l ih =>
    rw [List.foldl_cons, ih]
    simp [cuAdd, CuAgg.mk.injEq, add_assoc]

/-- Pointwise cache identity on artifacts lifts to the sums. -/
theorem sum_cache_split (l : List (String × MergeSummaryIn))
    (h : ∀ p ∈ l,
      p.2.total_tokens_with_cache =
        p.2.total_tokens + p.2.total_cache_read_tokens +
          p.2.total_cache_creation_tokens) :
    (l.map fun p => p.2.total_tokens_with_cache).sum =
      (l.map fun p => p.2.total_tokens).sum +
        (l.map fun p => p.2.total_cache_read_tokens).sum +
        (l.map fun p => p.2.total_cache_creation_tokens).sum := by
  induction l with
  | nil => simp
  | cons p l ih =>
    simp only [List.map_cons, List.sum_cons]
    rw [h p (by simp), ih (fun q hq => h q (by simp [hq]))]
    ring

/-- C2: the comparable (cache-inclusive) total always equals the API total
plus the cache tokens.  (1) Every Source Summary the event-log Collector
produces satisfies `total_tokens_with_cache = input + output + cacheRead +
cacheCreate` and `total_tokens = input + output` — the Collector computes
both from the already-summed fields.  (2) Merging any list of artifacts
whose claude-kind summaries each satisfy the identity yields a team
claude_code aggregate satisfying
`total_tokens_with_cache = total_tokens + cacheRead + cacheCreate`. -/
theorem C2_theorem :
    (∀ (projects : List Project) (startT endT : Ts),
      (collect_stats projects startT endT).summary.total_tokens_with_cache =
        (collect_stats projects startT endT).summary.total_input_tokens +
          (collect_stats projects startT endT).summary.total_output_tokens +
          (collect_stats projects startT endT).summary.total_cache_read_tokens +
          (collect_stats projects startT endT).summary.total_cache_creation_tokens ∧
      (collect_stats projects startT endT).summary.total_tokens =
        (collect_stats projects startT endT).summary.total_input_tokens +
          (collect_stats projects startT endT).summary.total_output_tokens) ∧
    (∀ files : List InputFile,
      (∀ p ∈ claudeFiles files,
        p.2.total_tokens_with_cache =
          p.2.total_tokens + p.2.total_cache_read_tokens +
            p.2.total_cache_creation_tokens) →
      (merge_stats files).claude_code.total_tokens_with_cache =
        (merge_stats files).claude_code.total_tokens +
          (merge_stats files).claude_code.total_cache_read_tokens +
          (merge_stats files).claude_code.total_cache_creation_tokens) := by
  constructor
  · intro projects startT endT
    exact ⟨rfl, rfl⟩
  · intro files h
    simp only [merge_stats, finalizeMerge, foldl_mergeStep_cc, ccFold_eq]
    simp only [maccZero, ccAggZero]
    rw [sum_cache_split _ h]
    ring

/-- The claude-kind artifact of the merge scenario: owner alice, comparable
total 1000 (API total 800 plus 150 cache-read and 50 cache-create). -/
def c3ccSummary : MergeSummaryIn :=
  { zeroSummaryIn with
      total_input_tokens := 600
      total_output_tokens := 200
      total_cache_read_tokens := 150
      total_cache_creation_tokens := 50
      total_tokens := 800
      total_tokens_with_cache := 1000 }

/-- The cursor-kind artifact of the merge scenario: owner bob, total 400. -/
def c3cuSummary : MergeSummaryIn :=
  { zeroSummaryIn with
      input_tokens_with_cache := 300
      output_tokens := 100
      total_tokens := 400 }

/-- Alice's claude artifact file (no `source` tag: defaults to claude). -/
def c3ccFile : InputFile :=
  ⟨"alice_claude.json", "alice_claude",
    some ⟨⟨none, some "alice", some "2026-02-01", some "2026-02-07"⟩,
      c3ccSummary⟩⟩

/-- Bob's cursor artifact file. -/
def c3cuFile : InputFile :=
  ⟨"bob_cursor.json", "bob_cursor",
    some ⟨⟨some "cursor", some "bob", some "2026-02-01", some "2026-02-07"⟩,
      c3cuSummary⟩⟩

/-- C3: the combined team total is the claude cache-inclusive total plus the
cursor total (the claude team mapping always carries the cache-inclusive
key, so the `.get` fallback never fires), and merging alice's claude
artifact (comparable total 1000) with bob's cursor artifact (total 400)
yields a combined total of 1400 for 2 members. -/
theorem C3_theorem :
    (∀ files : List InputFile,
      (merge_stats files).combined.total_tokens =
        (merge_stats files).claude_code.total_tokens_with_cache +
          (merge_stats files).cursor.total_tokens) ∧
    (merge_stats [c3ccFile, c3cuFile]).combined.total_tokens = 1400 ∧
    (merge_stats [c3ccFile, c3cuFile]).total_members = 2 := by
  refine ⟨fun files => rfl, ?_, by decide⟩
  simp [merge_stats, finalizeMerge, mergeStep, c3ccFile, c3cuFile, sourceOf, ownerOf,
    c3ccSummary, c3cuSummary, zeroSummaryIn, maccZero, ccAggZero,
    cuAggZero, ccAdd, cuAdd]
  norm_num

/-- Binding a successful `Except` computation runs the continuation. -/
theorem exceptBind_ok {ε α β : Type} (a : α) (k : α → Except ε β) :
    (Except.ok a >>= k : Except ε β) = k a := rfl

/-- Binding a failed `Except` computation propagates the failure. -/
theorem exceptBind_error {ε α β : Type} (e : ε) (k : α → Except ε β) :
    ((Except.error e : Except ε α) >>= k) = Except.error e := rfl

/-- An input file whose load itself raises (unreadable or invalid JSON). -/
def badFile : RawInputFile := ⟨"bad.json", "bad", LoadOutcome.loadError⟩

/-- An input file that loads as JSON but is structurally non-conforming,
so the merge loop body raises on it. -/
def weirdFile : RawInputFile := ⟨"weird.json", "weird", LoadOutcome.malformed⟩

/-- A conforming artifact of owner carol with an all-zero summary. -/
def goodStats : StatsFile := ⟨⟨none, some "carol", none, none⟩, zeroSummaryIn⟩

/-- A conforming input file. -/
def goodRawFile : RawInputFile :=
  ⟨"carol.json", "carol", LoadOutcome.conforming goodStats⟩

/-- C6 counterexample, refuting both directions of the claim.  (1) With one
supplied but unreadable file, zero valid inputs remain yet the merge does
not fail: it succeeds with the all-zero team summary.  (2) With one
conforming and one JSON-parsable but non-conforming file, a valid input
remains yet the non-conforming artifact is not skipped: its uncaught error
aborts the whole merge. -/
theorem C6_counterexample :
    (team_summary_main [badFile] =
        Except.ok (merge_stats [toInputFile badFile]) ∧
      validInputs [badFile] = [] ∧
      ([badFile] : List RawInputFile) ≠ []) ∧
    (team_summary_main [goodRawFile, weirdFile] =
        Except.error mergeAbortMsg ∧
      validInputs [goodRawFile, weirdFile] = [goodStats]) := by
  refine ⟨⟨rfl, rfl, by simp⟩, rfl, rfl⟩

/-- Folding the failable merge loop over malformed-free inputs succeeds and
agrees with the plain fold. -/
theorem foldlM_mergeStepE_ok (files : List RawInputFile) (acc : MergeAcc)
    (h : ∀ f ∈ files, f.outcome ≠ LoadOutcome.malformed) :
    files.foldlM mergeStepE acc =
      Except.ok ((files.map toInputFile).foldl mergeStep acc) := by
  induction files generalizing acc with
  | nil => rfl
  | cons f fs ih =>
    have hf := h f (by simp)
    have htail : ∀ g ∈ fs, g.outcome ≠ LoadOutcome.malformed :=
      fun g hg => h g (by simp [hg])
    cases ho : f.outcome with
    | loadError =>
      have hstep : mergeStep acc (toInputFile f) = acc := by
        simp [mergeStep, toInputFile, ho]
      rw [List.foldlM_cons,
        show mergeStepE acc f = Except.ok acc from by simp [mergeStepE, ho],
        exceptBind_ok, ih _ htail]
      simp [hstep]
    | malformed => exact absurd ho hf
    | conforming st =>
      have hto : toInputFile f = ⟨f.path, f.stem, some st⟩ := by
        simp [toInputFile, ho]
      rw [List.foldlM_cons,
        show mergeStepE acc f =
            Except.ok (mergeStep acc ⟨f.path, f.stem, some st⟩) from by
          simp [mergeStepE, ho],
        exceptBind_ok, ih _ htail]
      simp [hto]

/-- The failable merge fold errors exactly when some input is
non-conforming. -/
theorem foldlM_mergeStepE_error_iff (files : List RawInputFile)
    (acc : MergeAcc) :
    (∃ msg, files.foldlM mergeStepE acc = Except.error msg) ↔
      (∃ f ∈ files, f.outcome = LoadOutcome.malformed) := by
  induction files generalizing acc with
  | nil => simp [pure, Except.pure]
  | cons f fs ih =>
    cases ho : f.outcome with
    | loadError =>
      rw [List.foldlM_cons,
        show mergeStepE acc f = Except.ok acc from by simp [mergeStepE, ho],
        exceptBind_ok, ih]
      simp [ho]
    | malformed =>
      rw [List.foldlM_cons,
        show mergeStepE acc f = Except.error mergeAbortMsg from by
          simp [mergeStepE, ho],
        exceptBind_error]
      simp [ho]
    | conforming st =>
      rw [List.foldlM_cons,
        show mergeStepE acc f =
            Except.ok (mergeStep acc ⟨f.path, f.stem, some st⟩) from by
          simp [mergeStepE, ho],
        exceptBind_ok, ih]
      simp [ho]

/-- Mapping a result function preserves which computations error. -/
theorem exceptMap_error_iff {α β : Type} (x : Except String α) (g : α → β) :
    (∃ msg, x.map g = Except.error msg) ↔ ∃ msg, x = Except.error msg := by
  cases x <;> simp [Except.map]

/-- C6 (amended): an input file whose load itself raises (unreadable or
invalid JSON) is reported and skipped and the merge continues unchanged
over the remaining inputs — when no artifact is non-conforming the merge
succeeds and equals the plain fold, even if zero valid inputs remain; but
an artifact that loads as JSON without conforming to the artifact shape
raises an uncaught error that aborts the whole merge, so the operation
fails exactly when no input files were found at all or some loaded
artifact is non-conforming. -/
theorem C6_theorem :
    (∀ files : List RawInputFile,
      (∀ f ∈ files, f.outcome ≠ LoadOutcome.malformed) →
      merge_statsE files =
        Except.ok (merge_stats (files.map toInputFile))) ∧
    (∀ (l1 l2 : List RawInputFile) (bad : RawInputFile),
      bad.outcome = LoadOutcome.loadError →
      merge_statsE (l1 ++ bad :: l2) = merge_statsE (l1 ++ l2)) ∧
    (∀ files : List RawInputFile,
      (∃ msg, team_summary_main files = Except.error msg) ↔
        (files = [] ∨ ∃ f ∈ files, f.outcome = LoadOutcome.malformed)) := by
  refine ⟨?_, ?_, ?_⟩
  · intro files h
    rw [merge_statsE, foldlM_mergeStepE_ok files maccZero h]
    rfl
  · intro l1 l2 bad hb
    rw [merge_statsE, merge_statsE, List.foldlM_append, List.foldlM_append]
    have hmid : ∀ a : MergeAcc,
        (bad :: l2).foldlM mergeStepE a = l2.foldlM mergeStepE a := by
      intro a
      rw [List.foldlM_cons,
        show mergeStepE a bad = Except.ok a from by simp [mergeStepE, hb],
        exceptBind_ok]
    simp only [hmid]
  · intro files
    cases files with
    | nil => simp [team_summary_main]
    | cons f fs =>
      have h1 : team_summary_main (f :: fs) = merge_statsE (f :: fs) := by
        simp [team_summary_main]
      rw [h1, merge_statsE, exceptMap_error_iff,
        foldlM_mergeStepE_error_iff]
      simp

/-- Alice's first claude artifact (API and comparable total 100). -/
def pairSummaryA : MergeSummaryIn :=
  { zeroSummaryIn with
      total_input_tokens := 60
      total_output_tokens := 40
      total_tokens := 100
      total_tokens_with_cache := 100 }

/-- Alice's second claude artifact (API and comparable total 200). -/
def pairSummaryB : MergeSummaryIn :=
  { zeroSummaryIn with
      total_input_tokens := 120
      total_output_tokens := 80
      total_tokens := 200
      total_tokens_with_cache := 200 }

/-- The loaded contents of alice's first claude artifact. -/
def pairStatsA : StatsFile :=
  ⟨⟨none, some "alice", some "2026-02-01", some "2026-02-07"⟩, pairSummaryA⟩

/-- The loaded contents of alice's second claude artifact. -/
def pairStatsB : StatsFile :=
  ⟨⟨none, some "alice", some "2026-02-01", some "2026-02-07"⟩, pairSummaryB⟩

/-- First file of the duplicate-owner pair. -/
def pairFileA : InputFile := ⟨"alice1.json", "alice1", some pairStatsA⟩

/-- Second file of the duplicate-owner pair, same owner and tool. -/
def pairFileB : InputFile := ⟨"alice2.json", "alice2", some pairStatsB⟩

/-- C10: the per-tool team totals are the field-wise sums over all readable
artifacts of that tool kind (owner duplicates included), each such artifact
appends one leaderboard row, and — shown on two artifacts of one owner —
the per-tool team total (300) can exceed the sum of the `by_member` claude
totals (200, a single overwritten entry). -/
theorem C10_theorem :
    (∀ files : List InputFile,
      (merge_stats files).claude_code.total_tokens =
        ((claudeFiles files).map fun p => p.2.total_tokens).sum ∧
      (merge_stats files).claude_code.total_tokens_with_cache =
        ((claudeFiles files).map fun p => p.2.total_tokens_with_cache).sum ∧
      (merge_stats files).claude_code.total_input_tokens =
        ((claudeFiles files).map fun p => p.2.total_input_tokens).sum ∧
      (merge_stats files).claude_code.total_output_tokens =
        ((claudeFiles files).map fun p => p.2.total_output_tokens).sum ∧
      (merge_stats files).cursor.total_tokens =
        ((cursorFiles files).map fun p => p.2.total_tokens).sum ∧
      (merge_stats files).cursor.total_records =
        ((cursorFiles files).map fun p => p.2.records).sum ∧
      (merge_stats files).by_tool_claude.length =
        (claudeFiles files).length ∧
      (merge_stats files).by_tool_cursor.length =
        (cursorFiles files).length) ∧
    (merge_stats [pairFileA, pairFileB]).claude_code.total_tokens = 300 ∧
    (merge_stats [pairFileA, pairFileB]).by_member =
      [("alice", ⟨some (ccMemberOf pairSummaryB), none⟩)] ∧
    (merge_stats [pairFileA, pairFileB]).by_tool_claude.length = 2 ∧
    ((merge_stats [pairFileA, pairFileB]).by_member.map fun q =>
        ((q.2.claude_code.map (·.total_tokens)).getD 0)).sum <
      (merge_stats [pairFileA, pairFileB]).claude_code.total_tokens := by
  refine ⟨?_, ?_, ?_, ?_, ?_⟩
  · intro files
    refine ⟨?_, ?_, ?_, ?_, ?_, ?_, ?_, ?_⟩ <;>
      simp [merge_stats, finalizeMerge, foldl_mergeStep_cc, foldl_mergeStep_cu,
        foldl_mergeStep_by_tool_cc, foldl_mergeStep_by_tool_cu,
        ccFold_eq, cuFold_eq, maccZero, ccAggZero, cuAggZero]
  · simp [merge_stats, finalizeMerge, mergeStep, pairFileA, pairFileB, pairStatsA,
      pairStatsB, sourceOf, ownerOf, pairSummaryA, pairSummaryB,
      zeroSummaryIn, maccZero, ccAggZero, ccAdd]
    norm_num
  · simp [merge_stats, finalizeMerge, mergeStep, pairFileA, pairFileB, pairStatsA,
      pairStatsB, sourceOf, ownerOf, maccZero, updAssoc, ccMemberOf,
      pairSummaryA, pairSummaryB, zeroSummaryIn]
  · simp [merge_stats, finalizeMerge, mergeStep, pairFileA, pairFileB, pairStatsA,
      pairStatsB, sourceOf, ownerOf, maccZero]
  · simp [merge_stats, finalizeMerge, mergeStep, foldl_mergeStep_cc, ccFold_eq,
      pairFileA, pairFileB, pairStatsA, pairStatsB, sourceOf, ownerOf,
      pairSummaryA, pairSummaryB, zeroSummaryIn, maccZero, ccAggZero,
      ccAdd, updAssoc, ccMemberOf, claudeFiles]

/-- Effect of one merge step on the claude team aggregate alone. -/
def ccStep (c : CCAgg) (f : InputFile) : CCAgg :=
  match f.loaded with
  | none => c
  | some st => if sourceOf st = "cursor" then c else ccAdd c st.summary

/-- Effect of one merge step on the cursor team aggregate alone. -/
def cuStep (c : CuAgg) (f : InputFile) : CuAgg :=
  match f.loaded with
  | none => c
  | some st => if sourceOf st = "cursor" then cuAdd c st.summary else c

/-- Effect of one merge step on the member set alone. -/
def memStep (m : Finset String) (f : InputFile) : Finset String :=
  match f.loaded with
  | none => m
  | some st => insert (ownerOf f st) m

/-- Effect of one merge step on the claude member set alone. -/
def cmemStep (m : Finset String) (f : InputFile) : Finset String :=
  match f.loaded with
  | none => m
  | some st =>
    if sourceOf st = "cursor" then m else insert (ownerOf f st) m

/-- Effect of one merge step on the cursor member set alone. -/
def cumemStep (m : Finset String) (f : InputFile) : Finset String :=
  match f.loaded with
  | none => m
  | some st =>
    if sourceOf st = "cursor" then insert (ownerOf f st) m else m

/-- Effect of one merge step on the date-range start alone. -/
def drsStep (cur : Option String) (f : InputFile) : Option String :=
  match f.loaded with
  | none => cur
  | some st => drUpdStart cur st.metadata.start_date

/-- Effect of one merge step on the date-range end alone. -/
def dreStep (cur : Option String) (f : InputFile) : Option String :=
  match f.loaded with
  | none => cur
  | some st => drUpdEnd cur st.metadata.end_date

/-- Effect of one merge step on the claude leaderboard rows alone. -/
def btccStep (l : List CCToolEntry) (f : InputFile) : List CCToolEntry :=
  match f.loaded with
  | none => l
  | some st =>
    if sourceOf st = "cursor" then l
    else l ++ [⟨ownerOf f st, st.summary.total_tokens,
      st.summary.total_sessions⟩]

/-- Effect of one merge step on the cursor leaderboard rows alone. -/
def btcuStep (l : List CuToolEntry) (f : InputFile) : List CuToolEntry :=
  match f.loaded with
  | none => l
  | some st =>
    if sourceOf st = "cursor" then
      l ++ [⟨ownerOf f st, pyInt st.summary.total_tokens,
        st.summary.requests⟩]
    else l

/-- Effect of one merge step on the `by_member` mapping alone. -/
def bmStep (m : List (String × MemberEntry)) (f : InputFile) :
    List (String × MemberEntry) :=
  match f.loaded with
  | none => m
  | some st =>
    if sourceOf st = "cursor" then
      updAssoc m (ownerOf f st) ⟨none, none⟩
        (fun e => { e with cursor := some (cuMemberOf st.summary) })
    else
      updAssoc m (ownerOf f st) ⟨none, none⟩
        (fun e => { e with claude_code := some (ccMemberOf st.summary) })

/-- One merge step acts component-wise through the step functions above. -/
theorem mergeStep_fields (acc : MergeAcc) (f : InputFile) :
    (mergeStep acc f).cc = ccStep acc.cc f ∧
    (mergeStep acc f).cu = cuStep acc.cu f ∧
    (mergeStep acc f).members = memStep acc.members f ∧
    (mergeStep acc f).claude_members = cmemStep acc.claude_members f ∧
    (mergeStep acc f).cursor_members = cumemStep acc.cursor_members f ∧
    (mergeStep acc f).dr_start = drsStep acc.dr_start f ∧
    (mergeStep acc f).dr_end = dreStep acc.dr_end f ∧
    (mergeStep acc f).by_tool_cc = btccStep acc.by_tool_cc f ∧
    (mergeStep acc f).by_tool_cu = btcuStep acc.by_tool_cu f ∧
    (mergeStep acc f).by_member = bmStep acc.by_member f := by
  cases hf : f.loaded with
  | none =>
    simp [mergeStep, ccStep, cuStep, memStep, cmemStep, cumemStep, drsStep,
      dreStep, btccStep, btcuStep, bmStep, hf]
  | some st =>
    by_cases hs : sourceOf st = "cursor" <;>
      simp [mergeStep, ccStep, cuStep, memStep, cmemStep, cumemStep,
        drsStep, dreStep, btccStep, btcuStep, bmStep, hf, hs]

/-- Adding two claude artifacts commutes. -/
theorem ccAdd_right_comm (a : CCAgg) (x y : MergeSummaryIn) :
    ccAdd (ccAdd a x) y = ccAdd (ccAdd a y) x := by
  simp only [ccAdd, CCAgg.mk.injEq]
  refine ⟨?_, ?_, ?_, ?_, ?_, ?_, ?_, ?_⟩ <;> ring

/-- Adding two cursor artifacts commutes. -/
theorem cuAdd_right_comm (a : CuAgg) (x y : MergeSummaryIn) :
    cuAdd (cuAdd a x) y = cuAdd (cuAdd a y) x := by
  simp only [cuAdd, CuAgg.mk.injEq]
  refine ⟨?_, ?_, ?_, ?_, ?_, ?_, ?_⟩ <;> ring

/-- The claude aggregate step commutes on a pair of files. -/
theorem ccStep_comm (c : CCAgg) (a b : InputFile) :
    ccStep (ccStep c a) b = ccStep (ccStep c b) a := by
  rcases ha : a.loaded with _ | sa <;> rcases hb : b.loaded with _ | sb <;>
    simp [ccStep, ha, hb]
  by_cases h1 : sourceOf sa = "cursor" <;>
    by_cases h2 : sourceOf sb = "cursor" <;>
    simp [h1, h2, ccAdd_right_comm]

/-- The cursor aggregate step commutes on a pair of files. -/
theorem cuStep_comm (c : CuAgg) (a b : InputFile) :
    cuStep (cuStep c a) b = cuStep (cuStep c b) a := by
  rcases ha : a.loaded with _ | sa <;> rcases hb : b.loaded with _ | sb <;>
    simp [cuStep, ha, hb]
  by_cases h1 : sourceOf sa = "cursor" <;>
    by_cases h2 : sourceOf sb = "cursor" <;>
    simp [h1, h2, cuAdd_right_comm]

/-- The member-set step commutes on a pair of files. -/
theorem memStep_comm (m : Finset String) (a b : InputFile) :
    memStep (memStep m a) b = memStep (memStep m b) a := by
  rcases ha : a.loaded with _ | sa <;> rcases hb : b.loaded with _ | sb <;>
    simp [memStep, ha, hb, Finset.Insert.comm]

/-- The claude member-set step commutes on a pair of files. -/
theorem cmemStep_comm (m : Finset String) (a b : InputFile) :
    cmemStep (cmemStep m a) b = cmemStep (cmemStep m b) a := by
  rcases ha : a.loaded with _ | sa <;> rcases hb : b.loaded with _ | sb <;>
    simp [cmemStep, ha, hb]
  by_cases h1 : sourceOf sa = "cursor" <;>
    by_cases h2 : sourceOf sb = "cursor" <;>
    simp [h1, h2, Finset.Insert.comm]

/-- The cursor member-set step commutes on a pair of files. -/
theorem cumemStep_comm (m : Finset String) (a b : InputFile) :
    cumemStep (cumemStep m a) b = cumemStep (cumemStep m b) a := by
  rcases ha : a.loaded with _ | sa <;> rcases hb : b.loaded with _ | sb <;>
    simp [cumemStep, ha, hb]
  by_cases h1 : sourceOf sa = "cursor" <;>
    by_cases h2 : sourceOf sb = "cursor" <;>
    simp [h1, h2, Finset.Insert.comm]

/-- The date-range start update commutes on a pair applied to the empty
range. -/
theorem drUpdStart_comm (x y : Option String) :
    drUpdStart (drUpdStart none x) y = drUpdStart (drUpdStart none y) x := by
  rcases x with _ | s
  · rcases y with _ | t
    · rfl
    · rfl
  · rcases y with _ | t
    · rfl
    · by_cases hs : s = ""
      · by_cases ht : t = "" <;> simp [drUpdStart, hs, ht]
      · by_cases ht : t = ""
        · simp [drUpdStart, hs, ht]
        · simp only [drUpdStart, hs, ht, if_false]
          rcases lt_trichotomy s t with h | h | h
          · simp [h, lt_asymm h]
          · simp [h]
          · simp [h, lt_asymm h]

/-- The date-range end update commutes on a pair applied to the empty
range. -/
theorem drUpdEnd_comm (x y : Option String) :
    drUpdEnd (drUpdEnd none x) y = drUpdEnd (drUpdEnd none y) x := by
  rcases x with _ | s
  · rcases y with _ | t
    · rfl
    · rfl
  · rcases y with _ | t
    · rfl
    · by_cases hs : s = ""
      · by_cases ht : t = "" <;> simp [drUpdEnd, hs, ht]
      · by_cases ht : t = ""
        · simp [drUpdEnd, hs, ht]
        · simp only [drUpdEnd, hs, ht, if_false]
          rcases lt_trichotomy s t with h | h | h
          · simp [h, lt_asymm h]
          · simp [h]
          · simp [h, lt_asymm h]

/-- The claude leaderboard step on a pair of files gives the same rows up
to permutation. -/
theorem btccStep_perm (l : List CCToolEntry) (a b : InputFile) :
    (btccStep (btccStep l a) b).Perm (btccStep (btccStep l b) a) := by
  rcases ha : a.loaded with _ | sa <;> rcases hb : b.loaded with _ | sb <;>
    simp [btccStep, ha, hb]
  by_cases h1 : sourceOf sa = "cursor" <;>
    by_cases h2 : sourceOf sb = "cursor" <;> simp [h1, h2]
  exact List.Perm.append_left l (List.Perm.swap _ _ _)

/-- The cursor leaderboard step on a pair of files gives the same rows up
to permutation. -/
theorem btcuStep_perm (l : List CuToolEntry) (a b : InputFile) :
    (btcuStep (btcuStep l a) b).Perm (btcuStep (btcuStep l b) a) := by
  rcases ha : a.loaded with _ | sa <;> rcases hb : b.loaded with _ | sb <;>
    simp [btcuStep, ha, hb]
  by_cases h1 : sourceOf sa = "cursor" <;>
    by_cases h2 : sourceOf sb = "cursor" <;> simp [h1, h2]
  exact List.Perm.append_left l (List.Perm.swap _ _ _)

/-- Lookup after an association-list update. -/
theorem lookup_updAssoc {κ α : Type} [DecidableEq κ] [BEq κ] [LawfulBEq κ]
    (m : List (κ × α)) (k u : κ)
    (d : α) (f : α → α) :
    (updAssoc m k d f).lookup u =
      if u = k then some (f ((m.lookup k).getD d)) else m.lookup u := by
  induction m with
  | nil =>
    by_cases h : u = k
    · simp [updAssoc, List.lookup, h]
    · have hb : (u == k) = false := by simp [h]
      simp [updAssoc, List.lookup, h, hb]
  | cons p m ih =>
    obtain ⟨k1, v⟩ := p
    by_cases h1 : k1 = k
    · subst h1
      by_cases h2 : u = k1
      · simp [updAssoc, List.lookup, h2]
      · have hb : (u == k1) = false := by simp [h2]
        simp [updAssoc, List.lookup, h2, hb]
    · have hky : (k == k1) = false := by simp [Ne.symm h1]
      by_cases h3 : u = k1
      · subst h3
        simp [updAssoc, List.lookup, h1, Ne.symm h1]
      · have hb3 : (u == k1) = false := by simp [h3]
        simp [updAssoc, List.lookup, h1, hb3, hky, ih]

/-- Two association-list updates commute on lookups when the keys differ or
the update functions commute. -/
theorem lookup_updAssoc_comm {α : Type} (m : List (String × α))
    (k1 k2 u : String) (d : α) (f1 f2 : α → α)
    (h : k1 ≠ k2 ∨ ∀ x, f2 (f1 x) = f1 (f2 x)) :
    (updAssoc (updAssoc m k1 d f1) k2 d f2).lookup u =
      (updAssoc (updAssoc m k2 d f2) k1 d f1).lookup u := by
  rcases h with h | h
  · simp only [lookup_updAssoc]
    by_cases h1 : u = k1 <;> by_cases h2 : u = k2
    · exact absurd (h1.symm.trans h2) h
    · simp [h1, h2, h, Ne.symm h]
    · simp [h1, h2, h, Ne.symm h]
    · simp [h1, h2]
  · simp only [lookup_updAssoc]
    by_cases h1 : u = k1 <;> by_cases h2 : u = k2
    · subst h1
      subst h2
      simp [h]
    · have hk : ¬ k1 = k2 := fun hh => h2 (h1.trans hh)
      simp [h1, h2, hk, fun hh => h2 (h1.trans hh)]
    · have hk : ¬ k2 = k1 := fun hh => h1 (h2.trans hh)
      simp [h1, h2, hk]
    · simp [h1, h2]

/-- Two artifacts concern the same member slot: both load, resolve to one
owner, and carry the same tool kind. -/
def shareOwnerTool (a b : InputFile) : Prop :=
  ∃ sa sb, a.loaded = some sa ∧ b.loaded = some sb ∧
    ownerOf a sa = ownerOf b sb ∧
    ((sourceOf sa = "cursor") ↔ (sourceOf sb = "cursor"))

/-- Claude team totals of a swapped pair agree. -/
theorem pair_cc (a b : InputFile) :
    (mergeStep (mergeStep maccZero a) b).cc =
      (mergeStep (mergeStep maccZero b) a).cc := by
  rw [(mergeStep_fields _ _).1, (mergeStep_fields _ _).1,
    (mergeStep_fields _ _).1, (mergeStep_fields _ _).1]
  exact ccStep_comm _ a b

/-- Cursor team totals of a swapped pair agree. -/
theorem pair_cu (a b : InputFile) :
    (mergeStep (mergeStep maccZero a) b).cu =
      (mergeStep (mergeStep maccZero b) a).cu := by
  rw [(mergeStep_fields _ _).2.1, (mergeStep_fields _ _).2.1,
    (mergeStep_fields _ _).2.1, (mergeStep_fields _ _).2.1]
  exact cuStep_comm _ a b

/-- Member sets of a swapped pair agree. -/
theorem pair_members (a b : InputFile) :
    (mergeStep (mergeStep maccZero a) b).members =
      (mergeStep (mergeStep maccZero b) a).members := by
  rw [(mergeStep_fields _ _).2.2.1, (mergeStep_fields _ _).2.2.1,
    (mergeStep_fields _ _).2.2.1, (mergeStep_fields _ _).2.2.1]
  exact memStep_comm _ a b

/-- Claude member sets of a swapped pair agree. -/
theorem pair_claude_members (a b : InputFile) :
    (mergeStep (mergeStep maccZero a) b).claude_members =
      (mergeStep (mergeStep maccZero b) a).claude_members := by
  rw [(mergeStep_fields _ _).2.2.2.1, (mergeStep_fields _ _).2.2.2.1,
    (mergeStep_fields _ _).2.2.2.1, (mergeStep_fields _ _).2.2.2.1]
  exact cmemStep_comm _ a b

/-- Cursor member sets of a swapped pair agree. -/
theorem pair_cursor_members (a b : InputFile) :
    (mergeStep (mergeStep maccZero a) b).cursor_members =
      (mergeStep (mergeStep maccZero b) a).cursor_members := by
  rw [(mergeStep_fields _ _).2.2.2.2.1, (mergeStep_fields _ _).2.2.2.2.1,
    (mergeStep_fields _ _).2.2.2.2.1, (mergeStep_fields _ _).2.2.2.2.1]
  exact cumemStep_comm _ a b

/-- The date-range start step commutes on a pair of files from the empty
range. -/
theorem drsStep_comm (a b : InputFile) :
    drsStep (drsStep none a) b = drsStep (drsStep none b) a := by
  rcases ha : a.loaded with _ | sa <;> rcases hb : b.loaded with _ | sb <;>
    simp [drsStep, ha, hb]
  exact drUpdStart_comm _ _

/-- The date-range end step commutes on a pair of files from the empty
range. -/
theorem dreStep_comm (a b : InputFile) :
    dreStep (dreStep none a) b = dreStep (dreStep none b) a := by
  rcases ha : a.loaded with _ | sa <;> rcases hb : b.loaded with _ | sb <;>
    simp [dreStep, ha, hb]
  exact drUpdEnd_comm _ _

/-- Date-range starts of a swapped pair agree. -/
theorem pair_dr_start (a b : InputFile) :
    (mergeStep (mergeStep maccZero a) b).dr_start =
      (mergeStep (mergeStep maccZero b) a).dr_start := by
  rw [(mergeStep_fields _ _).2.2.2.2.2.1, (mergeStep_fields _ _).2.2.2.2.2.1,
    (mergeStep_fields _ _).2.2.2.2.2.1, (mergeStep_fields _ _).2.2.2.2.2.1]
  exact drsStep_comm a b

/-- Date-range ends of a swapped pair agree. -/
theorem pair_dr_end (a b : InputFile) :
    (mergeStep (mergeStep maccZero a) b).dr_end =
      (mergeStep (mergeStep maccZero b) a).dr_end := by
  rw [(mergeStep_fields _ _).2.2.2.2.2.2.1,
    (mergeStep_fields _ _).2.2.2.2.2.2.1,
    (mergeStep_fields _ _).2.2.2.2.2.2.1,
    (mergeStep_fields _ _).2.2.2.2.2.2.1]
  exact dreStep_comm a b

/-- Claude leaderboard rows of a swapped pair are a permutation. -/
theorem pair_btcc (a b : InputFile) :
    ((mergeStep (mergeStep maccZero a) b).by_tool_cc).Perm
      ((mergeStep (mergeStep maccZero b) a).by_tool_cc) := by
  rw [(mergeStep_fields _ _).2.2.2.2.2.2.2.1,
    (mergeStep_fields _ _).2.2.2.2.2.2.2.1,
    (mergeStep_fields _ _).2.2.2.2.2.2.2.1,
    (mergeStep_fields _ _).2.2.2.2.2.2.2.1]
  exact btccStep_perm _ a b

/-- Cursor leaderboard rows of a swapped pair are a permutation. -/
theorem pair_btcu (a b : InputFile) :
    ((mergeStep (mergeStep maccZero a) b).by_tool_cu).Perm
      ((mergeStep (mergeStep maccZero b) a).by_tool_cu) := by
  rw [(mergeStep_fields _ _).2.2.2.2.2.2.2.2.1,
    (mergeStep_fields _ _).2.2.2.2.2.2.2.2.1,
    (mergeStep_fields _ _).2.2.2.2.2.2.2.2.1,
    (mergeStep_fields _ _).2.2.2.2.2.2.2.2.1]
  exact btcuStep_perm _ a b

/-- `by_member` lookups of a swapped pair agree when the two artifacts do
not target one owner-and-tool slot. -/
theorem pair_bm (a b : InputFile) (h : ¬ shareOwnerTool a b) (u : String) :
    ((mergeStep (mergeStep maccZero a) b).by_member).lookup u =
      ((mergeStep (mergeStep maccZero b) a).by_member).lookup u := by
  rw [(mergeStep_fields _ _).2.2.2.2.2.2.2.2.2,
    (mergeStep_fields _ _).2.2.2.2.2.2.2.2.2,
    (mergeStep_fields _ _).2.2.2.2.2.2.2.2.2,
    (mergeStep_fields _ _).2.2.2.2.2.2.2.2.2]
  rcases ha : a.loaded with _ | sa
  · simp [bmStep, ha]
  · rcases hb : b.loaded with _ | sb
    · simp [bmStep, hb]
    · by_cases t1 : sourceOf sa = "cursor" <;>
        by_cases t2 : sourceOf sb = "cursor" <;>
        simp only [bmStep, ha, hb, t1, t2, if_true, if_false]
      · have hu : ownerOf a sa ≠ ownerOf b sb := fun hh =>
          h ⟨sa, sb, ha, hb, hh, by simp [t1, t2]⟩
        exact lookup_updAssoc_comm _ _ _ u _ _ _ (Or.inl hu)
      · exact lookup_updAssoc_comm _ _ _ u _ _ _ (Or.inr fun x => rfl)
      · exact lookup_updAssoc_comm _ _ _ u _ _ _ (Or.inr fun x => rfl)
      · have hu : ownerOf a sa ≠ ownerOf b sb := fun hh =>
          h ⟨sa, sb, ha, hb, hh, by simp [t1, t2]⟩
        exact lookup_updAssoc_comm _ _ _ u _ _ _ (Or.inl hu)

/-- C4 counterexample: the claim demands the same Team Summary for every
swapped pair, including the `by_member` map.  For two readable claude
artifacts of one owner with totals 100 and 200, `by_member` keeps only the
last-processed artifact, so the two processing orders disagree on alice's
entry. -/
theorem C4_counterexample :
    ¬ ((merge_stats [pairFileA, pairFileB]).by_member.lookup "alice" =
       (merge_stats [pairFileB, pairFileA]).by_member.lookup "alice") := by
  have h1 : (merge_stats [pairFileA, pairFileB]).by_member.lookup "alice" =
      some ⟨some (ccMemberOf pairSummaryB), none⟩ := by
    simp [merge_stats, finalizeMerge, mergeStep, pairFileA, pairFileB, pairStatsA,
      pairStatsB, sourceOf, ownerOf, maccZero, updAssoc, List.lookup]
  have h2 : (merge_stats [pairFileB, pairFileA]).by_member.lookup "alice" =
      some ⟨some (ccMemberOf pairSummaryA), none⟩ := by
    simp [merge_stats, finalizeMerge, mergeStep, pairFileA, pairFileB, pairStatsA,
      pairStatsB, sourceOf, ownerOf, maccZero, updAssoc, List.lookup]
  rw [h1, h2]
  simp only [Option.some.injEq, MemberEntry.mk.injEq, MemberCC.mk.injEq,
    ccMemberOf, pairSummaryA, pairSummaryB, zeroSummaryIn]
  intro hc
  have := hc.1.1
  norm_num at this

/-- C4 (amended): for every pair of input artifacts the two processing
orders yield the same team totals (claude, cursor and combined), the same
member counts, the same date range, and leaderboards that agree as
multisets (tied totals may appear in either order); the `by_member` map
also agrees provided the two artifacts do not address the same owner and
tool slot (where the last-processed one wins). -/
theorem C4_theorem :
    ∀ a b : InputFile,
    ((merge_stats [a, b]).claude_code = (merge_stats [b, a]).claude_code ∧
     (merge_stats [a, b]).cursor = (merge_stats [b, a]).cursor ∧
     (merge_stats [a, b]).combined = (merge_stats [b, a]).combined ∧
     (merge_stats [a, b]).total_members = (merge_stats [b, a]).total_members ∧
     (merge_stats [a, b]).claude_members_count =
       (merge_stats [b, a]).claude_members_count ∧
     (merge_stats [a, b]).cursor_members_count =
       (merge_stats [b, a]).cursor_members_count ∧
     (merge_stats [a, b]).dr_start = (merge_stats [b, a]).dr_start ∧
     (merge_stats [a, b]).dr_end = (merge_stats [b, a]).dr_end ∧
     ((merge_stats [a, b]).by_tool_claude).Perm
       ((merge_stats [b, a]).by_tool_claude) ∧
     ((merge_stats [a, b]).by_tool_cursor).Perm
       ((merge_stats [b, a]).by_tool_cursor)) ∧
    (¬ shareOwnerTool a b → ∀ u : String,
      (merge_stats [a, b]).by_member.lookup u =
        (merge_stats [b, a]).by_member.lookup u) := by
  intro a b
  constructor
  · refine ⟨pair_cc a b, pair_cu a b, ?_, ?_, ?_, ?_, pair_dr_start a b,
      pair_dr_end a b, ?_, ?_⟩
    · show Combined.mk _ _ _ = Combined.mk _ _ _
      simp only [List.foldl_cons, List.foldl_nil]
      rw [pair_cc a b, pair_cu a b]
    · exact congrArg Finset.card (pair_members a b)
    · exact congrArg Finset.card (pair_claude_members a b)
    · exact congrArg Finset.card (pair_cursor_members a b)
    · exact ((List.mergeSort_perm _ _).trans (pair_btcc a b)).trans
        (List.mergeSort_perm _ _).symm
    · exact ((List.mergeSort_perm _ _).trans (pair_btcu a b)).trans
        (List.mergeSort_perm _ _).symm
  · intro h u
    exact pair_bm a b h u

/-- C5: when two readable artifacts share one owner and one tool kind, the
`by_member` entry for that owner and tool is exactly the summary of the
last-processed artifact — the second artifact overwrites rather than
sums. -/
theorem C5_theorem :
    ∀ (a b : InputFile) (sa sb : StatsFile),
    a.loaded = some sa → b.loaded = some sb →
    ownerOf a sa = ownerOf b sb →
    (sourceOf sa ≠ "cursor" → sourceOf sb ≠ "cursor" →
      ((merge_stats [a, b]).by_member.lookup (ownerOf b sb)) =
        some ⟨some (ccMemberOf sb.summary), none⟩) ∧
    (sourceOf sa = "cursor" → sourceOf sb = "cursor" →
      ((merge_stats [a, b]).by_member.lookup (ownerOf b sb)) =
        some ⟨none, some (cuMemberOf sb.summary)⟩) := by
  intro a b sa sb ha hb hu
  constructor
  · intro t1 t2
    simp [merge_stats, finalizeMerge, mergeStep, ha, hb, t1, t2, hu,
      updAssoc, List.lookup]
  · intro t1 t2
    simp [merge_stats, finalizeMerge, mergeStep, ha, hb, t1, t2, hu,
      updAssoc, List.lookup]

/-- C5 witness: alice's two claude artifacts — the kept entry is the second
summary. -/
theorem C5_witness :
    (merge_stats [pairFileA, pairFileB]).by_member.lookup
        (ownerOf pairFileB pairStatsB) =
      some ⟨some (ccMemberOf pairStatsB.summary), none⟩ :=
  (C5_theorem pairFileA pairFileB pairStatsA pairStatsB rfl rfl rfl).1
    (by decide) (by decide)

/-- Whether the sequence `p` occurs contiguously inside `l` (the embedding
of Python's `in` on strings). -/
def seqOccurs {α : Type} [BEq α] (p : List α) : List α → Bool
  | [] => p.isEmpty
  | a :: t => p.isPrefixOf (a :: t) || seqOccurs p t

/-- Whether the string `p` occurs inside `s`. -/
def strOccurs (p s : String) : Bool := seqOccurs p.toList s.toList

/-- The kind classification of `cursor_stats.analyze_csv` (line 121): a row
is errored / no-charge when its kind text contains one of the markers. -/
def isErrKind (kind : String) : Bool :=
  strOccurs "Errored" kind || strOccurs "No Charge" kind

/-- One data row of the tabular export, after the tolerant numeric parse
(`parse_number` maps empty or malformed text to 0, so every numeric cell is
a rational here); `date` is `none` when the Date cell is empty or
unparseable. -/
structure CsvRow where
  date : Option Ts
  user : String
  kind : String
  model : String
  input_with_cache : ℚ
  input_without_cache : ℚ
  cache_read : ℚ
  output_tokens : ℚ
  total_tokens : ℚ
  requests : ℚ
deriving DecidableEq, Repr

/-- The per-model / per-user bucket of the tabular analyzer
(lines 68-85). -/
structure CuTally where
  input_tokens_with_cache : ℚ
  input_tokens_without_cache : ℚ
  cache_read_tokens : ℚ
  output_tokens : ℚ
  total_tokens : ℚ
  requests : ℚ
  records : Nat
deriving DecidableEq, Repr

/-- The all-zero tabular bucket. -/
def cuTallyZero : CuTally := ⟨0, 0, 0, 0, 0, 0, 0⟩

/-- Accumulate one billable row into a per-model or per-user bucket. -/
def addCuTally (row : CsvRow) (t : CuTally) : CuTally :=
  { input_tokens_with_cache :=
      t.input_tokens_with_cache + row.input_with_cache
    input_tokens_without_cache :=
      t.input_tokens_without_cache + row.input_without_cache
    cache_read_tokens := t.cache_read_tokens + row.cache_read
    output_tokens := t.output_tokens + row.output_tokens
    total_tokens := t.total_tokens + row.total_tokens
    requests := t.requests + row.requests
    records := t.records + 1 }

/-- The per-day bucket of the tabular analyzer (lines 86-92). -/
structure CuDayTally where
  input_tokens_with_cache : ℚ
  output_tokens : ℚ
  total_tokens : ℚ
  requests : ℚ
  records : Nat
deriving DecidableEq, Repr

/-- The all-zero per-day tabular bucket. -/
def cuDayZero : CuDayTally := ⟨0, 0, 0, 0, 0⟩

/-- Accumulate one billable row into a per-day bucket. -/
def addCuDay (row : CsvRow) (t : CuDayTally) : CuDayTally :=
  { input_tokens_with_cache :=
      t.input_tokens_with_cache + row.input_with_cache
    output_tokens := t.output_tokens + row.output_tokens
    total_tokens := t.total_tokens + row.total_tokens
    requests := t.requests + row.requests
    records := t.records + 1 }

/-- The result of `analyze_csv` (lines 59-95). -/
structure CsvStats where
  input_tokens_with_cache : ℚ
  input_tokens_without_cache : ℚ
  cache_read_tokens : ℚ
  output_tokens : ℚ
  total_tokens : ℚ
  requests : ℚ
  records : Nat
  errored_records : Nat
  by_model : List (String × CuTally)
  by_user : List (String × CuTally)
  by_day : List (Int × CuDayTally)
  active_days : Finset Int
  users : Finset String
deriving DecidableEq

/-- The empty tabular analyzer state. -/
def csvZero : CsvStats := ⟨0, 0, 0, 0, 0, 0, 0, 0, [], [], [], ∅, ∅⟩

/-- Process one row of the tabular export (the loop body at lines 99-169):
skip rows without a parseable date or outside the window; apply the
exact-match user filter; an errored / no-charge row increments only the
errored-record counter; every other row accumulates into the running
totals, the activity sets, and the per-model, per-user and per-day
buckets. -/
def processRow (startT endT : Ts) (target_user : Option String)
    (s : CsvStats) (row : CsvRow) : CsvStats :=
  match row.date with
  | none => s
  | some t =>
    if tsLtB t startT || tsLtB endT t then s
    else
      let skipUser :=
        match target_user with
        | some tu => row.user != tu
        | none => false
      if skipUser then s
      else if isErrKind row.kind then
        { s with errored_records := s.errored_records + 1 }
      else
        { s with
            input_tokens_with_cache :=
              s.input_tokens_with_cache + row.input_with_cache
            input_tokens_without_cache :=
              s.input_tokens_without_cache + row.input_without_cache
            cache_read_tokens := s.cache_read_tokens + row.cache_read
            output_tokens := s.output_tokens + row.output_tokens
            total_tokens := s.total_tokens + row.total_tokens
            requests := s.requests + row.requests
            records := s.records + 1
            active_days := insert t.day s.active_days
            users := insert row.user s.users
            by_model :=
              updAssoc s.by_model row.model cuTallyZero (addCuTally row)
            by_user :=
              updAssoc s.by_user row.user cuTallyZero (addCuTally row)
            by_day := updAssoc s.by_day t.day cuDayZero (addCuDay row) }

/-- `analyze_csv` of `cursor_stats.py`: fold the row processor over the
parsed rows of one CSV file. -/
def analyze_csv (rows : List CsvRow) (startT endT : Ts)
    (target_user : Option String) : CsvStats :=
  rows.foldl (processRow startT endT target_user) csvZero

/-- The in-window errored row of the tabular scenario (total 500). -/
def c7errRow : CsvRow :=
  { date := some ⟨1, 0⟩, user := "bob@x", kind := "Errored", model := "m"
    input_with_cache := 0, input_without_cache := 0, cache_read := 0
    output_tokens := 0, total_tokens := 500, requests := 1 }

/-- The in-window billable row of the tabular scenario (total 300). -/
def c7okRow : CsvRow :=
  { date := some ⟨1, 0⟩, user := "bob@x", kind := "On-Demand", model := "m"
    input_with_cache := 200, input_without_cache := 100, cache_read := 50
    output_tokens := 100, total_tokens := 300, requests := 1 }

/-- C7: an in-window, filter-passing row with an errored / no-charge marker
increments only the errored-record counter; every other in-window,
filter-passing row adds its values to the running totals and to the
per-model, per-user and per-day buckets; and the scenario file with one
"Errored" row (total 500) and one "On-Demand" row (total 300) yields
total_tokens 300 and one errored record. -/
theorem C7_theorem :
    (∀ (startT endT : Ts) (tu : Option String) (s : CsvStats)
        (row : CsvRow) (t : Ts),
      row.date = some t → tsLtB t startT = false → tsLtB endT t = false →
      (∀ u, tu = some u → row.user = u) →
      isErrKind row.kind = true →
      processRow startT endT tu s row =
        { s with errored_records := s.errored_records + 1 }) ∧
    (∀ (startT endT : Ts) (tu : Option String) (s : CsvStats)
        (row : CsvRow) (t : Ts),
      row.date = some t → tsLtB t startT = false → tsLtB endT t = false →
      (∀ u, tu = some u → row.user = u) →
      isErrKind row.kind = false →
      ((processRow startT endT tu s row).total_tokens =
          s.total_tokens + row.total_tokens ∧
        (processRow startT endT tu s row).records = s.records + 1 ∧
        (processRow startT endT tu s row).errored_records =
          s.errored_records ∧
        ((processRow startT endT tu s row).by_model.lookup row.model) =
          some (addCuTally row
            ((s.by_model.lookup row.model).getD cuTallyZero)) ∧
        ((processRow startT endT tu s row).by_user.lookup row.user) =
          some (addCuTally row
            ((s.by_user.lookup row.user).getD cuTallyZero)) ∧
        ((processRow startT endT tu s row).by_day.lookup t.day) =
          some (addCuDay row
            ((s.by_day.lookup t.day).getD cuDayZero)))) ∧
    (analyze_csv [c7errRow, c7okRow] c1start c1end none).total_tokens =
      300 ∧
    (analyze_csv [c7errRow, c7okRow] c1start c1end none).errored_records =
      1 := by
  have he : isErrKind "Errored" = true := by decide
  have ho : isErrKind "On-Demand" = false := by decide
  refine ⟨?_, ?_, ?_, ?_⟩
  · intro startT endT tu s row t hdate hw1 hw2 hflt herr
    cases htu : tu with
    | none => simp [processRow, hdate, hw1, hw2, herr]
    | some u =>
      have hb : (row.user != u) = false := by simp [hflt u htu]
      simp [processRow, hdate, hw1, hw2, herr, hb]
  · intro startT endT tu s row t hdate hw1 hw2 hflt herr
    cases htu : tu with
    | none =>
      simp [processRow, hdate, hw1, hw2, herr, lookup_updAssoc]
    | some u =>
      have hb : (row.user != u) = false := by simp [hflt u htu]
      simp [processRow, hdate, hw1, hw2, herr, hb, lookup_updAssoc]
  · simp [analyze_csv, processRow, c7errRow, c7okRow, csvZero, c1start,
      c1end, tsLtB, he, ho]
  · simp [analyze_csv, processRow, c7errRow, c7okRow, csvZero, c1start,
      c1end, tsLtB, he, ho]

/-- The migration-progress value shown by the team report
(`stats_service._generate_team_markdown`, lines 297-303): a ratio when the
cursor total is positive, the explicit fully-migrated sentinel (rendered
"∞ (已完全迁移)") when only claude has usage, and a plain zero display
otherwise. -/
inductive MigrationDisplay
  | ratioOf (value : ℚ)
  | fullyMigrated
  | zeroDisplay
deriving DecidableEq, Repr

/-- The team-report migration value (lines 297-303). -/
def team_migration_display (cc_total cu_total : ℚ) : MigrationDisplay :=
  if 0 < cu_total then MigrationDisplay.ratioOf (cc_total / cu_total * 100)
  else if 0 < cc_total then MigrationDisplay.fullyMigrated
  else MigrationDisplay.zeroDisplay

/-- The personal-report migration value
(`stats_service._generate_personal_markdown`, line 209): the ratio when the
cursor total is positive, else the number 0 — there is no sentinel in this
path. -/
def personal_migration_ratio (cc_total cu_total : ℚ) : ℚ :=
  if 0 < cu_total then cc_total / cu_total * 100 else 0

/-- C9 counterexample: with a zero tabular total and a positive event-log
total, the personal-report derivation (one of the two cited
migration-ratio derivations) yields the plain number 0 — the very value it
yields when there is no usage at all — not a "fully migrated" sentinel;
only the team-report derivation produces the sentinel. -/
theorem C9_counterexample :
    personal_migration_ratio 100 0 = 0 ∧
    personal_migration_ratio 0 0 = 0 ∧
    team_migration_display 100 0 = MigrationDisplay.fullyMigrated := by
  refine ⟨?_, ?_, ?_⟩ <;> norm_num [personal_migration_ratio,
    team_migration_display]

/-- C9 (amended): for a zero tabular total and positive event-log total,
the team derivation takes the sentinel branch and the personal derivation
takes the constant-zero branch; neither path divides, so no division
error, infinity or NaN arises from the zero denominator. -/
theorem C9_theorem :
    ∀ cc cu : ℚ, cu = 0 → 0 < cc →
      team_migration_display cc cu = MigrationDisplay.fullyMigrated ∧
      personal_migration_ratio cc cu = 0 := by
  intro cc cu h0 hp
  subst h0
  constructor
  · simp [team_migration_display, hp]
  · simp [personal_migration_ratio]

/-- C9 witness: the amended claim at cc=100, cu=0. -/
theorem C9_witness :
    team_migration_display 100 0 = MigrationDisplay.fullyMigrated ∧
    personal_migration_ratio 100 0 = 0 :=
  C9_theorem 100 0 rfl (by norm_num)
